import Mathlib

/-!
Verification of the AI-Resume-Builder resilience and content-synthesis
layer.

This file gives a shallow embedding, in Lean 4, of the core of the
`AIService` module of the AI-Resume-Builder backend: the JSON text repair
unit (`scrubJsonText`), the circuit breaker, the quota/rate governor, the
local synthesis engine, and the per-operation orchestrators
(`generateResumeContent`, `computeATSScore`, `generateProfileSummary`,
`enhanceMultipleSections`, `enhanceSection`).  JavaScript strings are
modelled as `List Char` / `String`, JavaScript numbers as `Rat` (with
`Math.round x` modelled as `⌊x + 1/2⌋`), machine time as `Nat`
milliseconds, calendar days as `Nat` identifiers, and the remote
generative-model client as an oracle parameter.  Theorems at the end of
the file settle the specification claims against this embedding.
-/

/-! ## JavaScript character and string primitives -/

/-- The character class matched by the JavaScript regex `\s` (and used by
`String.prototype.trim`): ASCII whitespace, NBSP, BOM and the Unicode
space separators. -/
def isJsWs (c : Char) : Bool :=
  c = ' ' || c = '\t' || c = '\n' || c = '\r' ||
  c = Char.ofNat 0x0B || c = Char.ofNat 0x0C || c = Char.ofNat 0xA0 ||
  c = Char.ofNat 0x1680 || (0x2000 ≤ c.toNat && c.toNat ≤ 0x200A) ||
  c = Char.ofNat 0x2028 || c = Char.ofNat 0x2029 || c = Char.ofNat 0x202F ||
  c = Char.ofNat 0x205F || c = Char.ofNat 0x3000 || c = Char.ofNat 0xFEFF

/-- Characters removed by the scrubber's control-character strip:
the regex class `[\x00-\x1F\x7F]`. -/
def isCtrl (c : Char) : Bool := c.toNat ≤ 0x1F || c.toNat = 0x7F

/-- `String.prototype.trim` on a character list: drop leading and trailing
JS whitespace. -/
def jsTrim (l : List Char) : List Char :=
  ((l.dropWhile isJsWs).reverse.dropWhile isJsWs).reverse

/-- `String.prototype.trim` on a `String`. -/
def jsTrimStr (s : String) : String := ⟨jsTrim s.data⟩

/-- `String.prototype.includes(pat)`: `pat` occurs as a contiguous
substring. -/
def jsIncludes (pat : List Char) : List Char → Bool
  | [] => pat.isPrefixOf ([] : List Char)
  | c :: rest => pat.isPrefixOf (c :: rest) || jsIncludes pat rest

/-- `String.prototype.includes` on `String`s. -/
def jsIncludesStr (s pat : String) : Bool := jsIncludes pat.data s.data

/-! ## Text Repair Unit (`scrubJsonText`, source lines 173-222)

Each step below embeds, in source order, one `replace`/append step of
`scrubJsonText`. -/

/-- Step: `text.replace(/^```json\n?/, '')`.  The regex is anchored and
non-global; the optional newline is consumed greedily. -/
def stripFenceOpen (l : List Char) : List Char :=
  if ("```json\n".data).isPrefixOf l then l.drop 8
  else if ("```json".data).isPrefixOf l then l.drop 7
  else l

/-- Step: `text.replace(/\n?```$/, '')`.  Anchored at the end; the
optional newline is consumed greedily. -/
def stripFenceClose (l : List Char) : List Char :=
  if ("\n```".data).isSuffixOf l then l.take (l.length - 4)
  else if ("```".data).isSuffixOf l then l.take (l.length - 3)
  else l

/-- The global replacement `text.replace(/\\"/g, '"')`: a left-to-right
non-overlapping scan replacing each backslash-quote pair by a quote. -/
def unescapeBackslashQuotes : List Char → List Char
  | [] => []
  | '\\' :: '"' :: rest => '"' :: unescapeBackslashQuotes rest
  | c :: rest => c :: unescapeBackslashQuotes rest

/-- Step: the conservative quote fix — only applied when the text contains
`\"` but not `\\"` (source lines 182-185). -/
def unescapeQuotes (l : List Char) : List Char :=
  if jsIncludes ['\\', '"'] l && !jsIncludes ['\\', '\\', '"'] l then
    unescapeBackslashQuotes l
  else l

/-- Scanner for the global replace `text.replace(/,\s*([}\]])/g, '$1')`.
The state `pend = some (x, ws)` records a pending comma `x` followed by
the buffered (reversed) whitespace run `ws`; a following `}`/`]` closes
the match (the comma and whitespace are dropped, the scan continues after
the consumed closer), any other character abandons it (the regex then
resumes at the next position, and whitespace characters can never start
a match). -/
def removeScan (pend : Option (Char × List Char)) : List Char → List Char
  | [] =>
    match pend with
    | some (x, ws) => x :: ws.reverse
    | none => []
  | c :: rest =>
    match pend with
    | none =>
      if c = ',' then removeScan (some (c, [])) rest
      else c :: removeScan none rest
    | some (x, ws) =>
      if isJsWs c then removeScan (some (x, c :: ws)) rest
      else if c = '}' || c = ']' then c :: removeScan none rest
      else if c = ',' then x :: ws.reverse ++ removeScan (some (c, [])) rest
      else x :: ws.reverse ++ (c :: removeScan none rest)

/-- Step: `text.replace(/,\s*([}\]])/g, '$1')` — drop a comma (and the
whitespace after it) that directly precedes a closing brace/bracket. -/
def removeTrailingCommas (l : List Char) : List Char := removeScan none l

/-- First capture class of the missing-comma regex: `["}\]]`. -/
def isCloserOrQuote (c : Char) : Bool := c = '"' || c = '}' || c = ']'

/-- Second capture class of the missing-comma regex: `["{]`. -/
def isOpenerOrQuote (c : Char) : Bool := c = '"' || c = '{'

/-- Scanner for the global replace
`text.replace(/(["}\]])\s*(["{])/g, '$1,$2')`.  The state
`pend = some (x, ws)` records a pending first capture `x` followed by the
buffered (reversed) whitespace run `ws`.  A following `"`/`{` closes the
match: the comma is inserted, the whitespace dropped, and the scan
continues after the consumed second capture.  Any other character
abandons the match; since whitespace can never start a match, the regex
resumes either at a new first-capture character or past the run. -/
def insertScan (pend : Option (Char × List Char)) : List Char → List Char
  | [] =>
    match pend with
    | some (x, ws) => x :: ws.reverse
    | none => []
  | c :: rest =>
    match pend with
    | none =>
      if isCloserOrQuote c then insertScan (some (c, [])) rest
      else c :: insertScan none rest
    | some (x, ws) =>
      if isJsWs c then insertScan (some (x, c :: ws)) rest
      else if isOpenerOrQuote c then x :: ',' :: c :: insertScan none rest
      else if isCloserOrQuote c then x :: ws.reverse ++ insertScan (some (c, [])) rest
      else x :: ws.reverse ++ (c :: insertScan none rest)

/-- Step: `text.replace(/(["}\]])\s*(["{])/g, '$1,$2')` — insert a comma
between a closing delimiter/quote and a following opening
delimiter/quote, dropping the whitespace between them. -/
def insertMissingCommas (l : List Char) : List Char := insertScan none l

/-- Step: `text.replace(/[\x00-\x1F\x7F]/g, '')`. -/
def stripControlChars (l : List Char) : List Char := l.filter fun c => !isCtrl c

/-- Step: count unmatched braces and brackets (counted once, before any
appending, as in the source) and append the missing closing delimiters:
first the braces, then the brackets. -/
def balanceDelims (l : List Char) : List Char :=
  let openBraces := l.count '{'
  let closeBraces := l.count '}'
  let openBrackets := l.count '['
  let closeBrackets := l.count ']'
  let l1 := if closeBraces < openBraces then
      l ++ List.replicate (openBraces - closeBraces) '}' else l
  if closeBrackets < openBrackets then
    l1 ++ List.replicate (openBrackets - closeBrackets) ']' else l1

/-- Step: `text.replace(/"(.*?)"\s*\n\s*"(.*?)"$/g, '"$1","$2"')`.
The pattern can only match a text containing a literal newline, but every
control character — including the newline, `\x0A` — was removed by the
preceding control-character strip, and the delimiter balancing appends
only braces and brackets.  Hence on every input that reaches this step the
replacement never fires, and the step is the identity. -/
def fixQuotedNewlines (l : List Char) : List Char := l

/-- Step: if the quote count is odd, append one closing quote. -/
def balanceQuotes (l : List Char) : List Char :=
  if l.count '"' % 2 = 1 then l ++ ['"'] else l

/-- The full Text Repair Unit `scrubJsonText` on a character list, with the
steps applied in source order (lines 173-222). -/
def scrubChars (l : List Char) : List Char :=
  balanceQuotes (fixQuotedNewlines (balanceDelims (stripControlChars
    (insertMissingCommas (removeTrailingCommas (unescapeQuotes
      (stripFenceClose (stripFenceOpen (jsTrim l)))))))))

/-- `scrubJsonText(text)` — the Text Repair Unit. -/
def scrubJsonText (s : String) : String := ⟨scrubChars s.data⟩

/-! ## Circuit Breaker (source lines 233-328)

The breaker state lives in the `AIService` singleton: `circuitState`,
`failureCount` and `nextTry`, with `failureThreshold = 3` and
`resetTimeout = 60000` ms. -/

/-- The three circuit-breaker states. -/
inductive CBState where
  | CLOSED
  | OPEN
  | HALFOPEN
deriving DecidableEq, Repr

/-- The circuit-breaker portion of the service state. -/
structure CB where
  circuitState : CBState
  failureCount : Nat
  nextTry : Nat
deriving DecidableEq, Repr

/-- `failureThreshold` (source line 237). -/
def failureThreshold : Nat := 3

/-- `resetTimeout` in milliseconds (source line 238). -/
def resetTimeout : Nat := 60000

/-- The entry check of `withCircuitBreaker` (source lines 286-294): when
OPEN, transition to HALF-OPEN if `Date.now() > nextTry`, otherwise fail
fast without invoking the wrapped call.  Returns whether the wrapped call
will be invoked, together with the updated breaker state. -/
def cbAttempt (cb : CB) (now : Nat) : Bool × CB :=
  if cb.circuitState = CBState.OPEN then
    if cb.nextTry < now then (true, { cb with circuitState := CBState.HALFOPEN })
    else (false, cb)
  else (true, cb)

/-- `resetCircuit` (source lines 324-328). -/
def resetCircuit (cb : CB) : CB :=
  { cb with failureCount := 0, circuitState := CBState.CLOSED }

/-- The success branch of `withCircuitBreaker` (source lines 297-301):
the circuit is reset only when the state is HALF-OPEN. -/
def cbOnSuccess (cb : CB) : CB :=
  if cb.circuitState = CBState.HALFOPEN then resetCircuit cb else cb

/-- `recordFailure` (source lines 315-322): increment the failure count
and trip the breaker when the threshold is reached. -/
def recordFailure (cb : CB) (now : Nat) : CB :=
  let cb := { cb with failureCount := cb.failureCount + 1 }
  if failureThreshold ≤ cb.failureCount then
    { cb with circuitState := CBState.OPEN, nextTry := now + resetTimeout }
  else cb

/-- The outcome of one `withCircuitBreaker(fn)` call: the new breaker
state, whether `fn` was invoked, and the propagated result (`Except.error`
models a thrown exception — either the fail-fast "service temporarily
unavailable" error or the re-thrown failure of `fn`). -/
structure CBOutcome (α : Type) where
  cb : CB
  invoked : Bool
  result : Except Unit α

/-- `withCircuitBreaker(fn)` (source lines 285-313), with the outcome of
the wrapped call passed as `fn : Except Unit α`. -/
def withCircuitBreaker (cb : CB) (now : Nat) (fn : Except Unit α) : CBOutcome α :=
  match cbAttempt cb now with
  | (false, cb1) => ⟨cb1, false, Except.error ()⟩
  | (true, cb1) =>
    match fn with
    | Except.ok a => ⟨cbOnSuccess cb1, true, Except.ok a⟩
    | Except.error e => ⟨recordFailure cb1 now, true, Except.error e⟩

/-! ## Quota & Rate Governor (source lines 240-283)

`lastApiCall`, `minCallInterval = 1000`, `dailyCallCount`,
`dailyCallLimit = 15` and `lastResetDate` live in the singleton.  A
calendar day (`new Date().toDateString()`) is modelled as a `Nat`
identifier compared for equality. -/

/-- `minCallInterval` in milliseconds (source line 243). -/
def minCallInterval : Nat := 1000

/-- `dailyCallLimit` (source line 245). -/
def dailyCallLimit : Nat := 15

/-- The governor portion of the service state. -/
structure Governor where
  lastApiCall : Nat
  dailyCallCount : Nat
  lastResetDate : Nat
deriving DecidableEq, Repr

/-- `isDailyLimitReached` (source lines 253-260): on the first check of a
new calendar day, reset the counter and the stored date together; report
whether the (possibly reset) counter has reached the ceiling.  Returns
the updated governor state and the verdict. -/
def isDailyLimitReached (g : Governor) (today : Nat) : Governor × Bool :=
  let g :=
    if today ≠ g.lastResetDate then
      { g with dailyCallCount := 0, lastResetDate := today }
    else g
  (g, dailyCallLimit ≤ g.dailyCallCount)

/-- `withRateLimit` (source lines 275-283): cooperatively wait out the
minimum inter-call interval, then record the call time and increment the
daily counter.  The wait is modelled by its end time: the call is stamped
at `now` if the interval has already elapsed, and at
`lastApiCall + minCallInterval` otherwise. -/
def withRateLimit (g : Governor) (now : Nat) : Governor :=
  let stamp := if now - g.lastApiCall < minCallInterval
    then g.lastApiCall + minCallInterval else now
  { g with lastApiCall := stamp, dailyCallCount := g.dailyCallCount + 1 }

/-! ## JSON values and JavaScript value helpers

`JSON.parse` output is modelled by `JVal`; JavaScript numbers by `Rat`. -/

/-- A parsed JSON value. -/
inductive JVal where
  | null
  | jbool (b : Bool)
  | num (q : Rat)
  | str (s : String)
  | arr (xs : List JVal)
  | obj (fields : List (String × JVal))

/-- Property lookup `v[k]` on a parsed value: on objects the last binding
wins (as in `JSON.parse` for duplicate keys); on every other value the
access yields `undefined`, modelled as `none`. -/
def jsGet (v : JVal) (k : String) : Option JVal :=
  match v with
  | JVal.obj fs => fs.foldl (fun acc kv => if kv.1 = k then some kv.2 else acc) none
  | _ => none

/-- JavaScript truthiness of a parsed value. -/
def jsTruthy : JVal → Bool
  | JVal.null => false
  | JVal.jbool b => b
  | JVal.num q => q ≠ 0
  | JVal.str s => s ≠ ""
  | JVal.arr _ => true
  | JVal.obj _ => true

/-- `Math.round` on a finite number: `⌊x + 1/2⌋` (halves round towards
positive infinity, as in JavaScript). -/
def jsRound (q : Rat) : Int := (q + 1/2).floor

/-- The top-level keys of a parsed object (empty for non-objects). -/
def topLevelKeys : JVal → List String
  | JVal.obj fs => fs.map Prod.fst
  | _ => []

/-- Truthy-or-default on an optional string: the JavaScript idiom
`s || dflt` for a possibly-undefined string. -/
def jsOrStr (s : Option String) (dflt : String) : String :=
  match s with
  | some v => if v = "" then dflt else v
  | none => dflt

/-- String interpolation of a possibly-undefined value: `undefined`
interpolates as the text "undefined". -/
def jsInterp (s : Option String) : String :=
  match s with
  | some v => v
  | none => "undefined"

/-! ## ATS AI-path result normalization (source lines 1269-1277)

After a successful parse, `computeATSScoreWithAI` returns the parsed
fields normalized as below. -/

/-- The normalized result of the ATS AI path. -/
structure ATSAIResult where
  score : Option Int
  summary : JVal
  keywordsMatched : List JVal
  keywordsMissing : List JVal
  suggestions : List JVal
  computationMethod : String

/-- The normalization applied by `computeATSScoreWithAI` to the parsed
response (source lines 1269-1277): the score is rounded and clamped into
`[0,100]` when it is a number and `null` otherwise; each keyword/suggestion
field is passed through when it is an array and replaced by `[]`
otherwise; the summary falls back to the empty string when falsy. -/
def normalizeATSParsed (parsed : JVal) : ATSAIResult :=
  { score :=
      match jsGet parsed "score" with
      | some (JVal.num q) => some (max 0 (min 100 (jsRound q)))
      | _ => none
  , summary :=
      match jsGet parsed "summary" with
      | some v => if jsTruthy v then v else JVal.str ""
      | none => JVal.str ""
  , keywordsMatched :=
      match jsGet parsed "keywordsMatched" with
      | some (JVal.arr xs) => xs
      | _ => []
  , keywordsMissing :=
      match jsGet parsed "keywordsMissing" with
      | some (JVal.arr xs) => xs
      | _ => []
  , suggestions :=
      match jsGet parsed "suggestions" with
      | some (JVal.arr xs) => xs
      | _ => []
  , computationMethod := "ai" }

/-! ## Result envelopes of the resume-content operation

`generateResumeContentWithAI` returns the object literal of source lines
803-808; `enhanceContentLocally` returns the literal of lines 872-878.
Both are embedded here as `JVal` builders over the payload. -/

/-- The AI-path return object of `generateResumeContentWithAI`
(source lines 803-808). -/
def resumeContentAIEnvelope (generatedContent : JVal) (effectiveRole : Option String) : JVal :=
  JVal.obj
    [ ("success", JVal.jbool true)
    , ("generatedContent", generatedContent)
    , ("aiPrompt", JVal.str ("Generated resume for " ++ jsOrStr effectiveRole "Professional" ++ " role"))
    , ("generationMethod", JVal.str "ai") ]

/-- The local-path return object of `enhanceContentLocally`
(source lines 872-878). -/
def resumeContentLocalEnvelope (generatedContent : JVal) (effectiveRole : String)
    (enhancements : List String) : JVal :=
  JVal.obj
    [ ("success", JVal.jbool true)
    , ("generatedContent", generatedContent)
    , ("aiPrompt", JVal.str ("Enhanced resume for " ++ effectiveRole
        ++ " role (local enhancement) - " ++ String.intercalate ", " enhancements))
    , ("enhancements", JVal.arr (enhancements.map JVal.str))
    , ("enhancementMethod", JVal.str "local") ]

/-! ## Resume data model

Typed model of the structured request data destructured by the service.
Fields that JavaScript may leave `undefined` are `Option`s; fields the
code dereferences unconditionally (`proj.name`, `ach.title`,
`exp.position`) are plain values. -/

/-- `personalInfo`. -/
structure PersonalInfo where
  summary : Option String
  objective : Option String
  email : Option String
  phone : Option String
deriving DecidableEq, Repr

/-- `skills`. -/
structure Skills where
  technical : Option (List String)
  soft : Option (List String)
  languages : Option (List String)
  tools : Option (List String)
deriving DecidableEq, Repr

/-- An `education` entry. -/
structure Education where
  institution : Option String
  degree : Option String
  field : Option String
  startDate : Option String
  endDate : Option String
  gpa : Option String
  description : Option String
  achievements : Option (List String)
deriving DecidableEq, Repr

/-- An experience `description` is either a single string or an array of
strings; the source handles both (`Array.isArray(exp.description)`). -/
inductive JStrings where
  | one (s : String)
  | many (l : List String)
deriving DecidableEq, Repr

/-- An `experience` entry. -/
structure Experience where
  company : Option String
  position : String
  location : Option String
  startDate : Option String
  endDate : Option String
  current : Option Bool
  description : Option JStrings
  achievements : Option (List String)
deriving DecidableEq, Repr

/-- A `projects` entry. -/
structure Project where
  name : String
  description : Option String
  technologies : Option (List String)
  outcomes : Option (List String)
  link : Option String
  github : Option String
deriving DecidableEq, Repr

/-- An `achievements` entry. -/
structure Achievement where
  title : String
  description : Option String
  date : Option String
deriving DecidableEq, Repr

/-- The request payload destructured by `generateResumeContent`,
`enhanceContentLocally`, `computeATSScore*` and `generateProfileSummary`.
`isFresher` is used only for truthiness in the source, so it is modelled
as a `Bool`. -/
structure ResumeData where
  personalInfo : Option PersonalInfo
  skills : Option Skills
  education : Option (List Education)
  experience : Option (List Experience)
  projects : Option (List Project)
  achievements : Option (List Achievement)
  roleApplyingFor : Option String
  isFresher : Bool
deriving DecidableEq, Repr

/-- The JavaScript idiom `arr || dflt` for a possibly-undefined array
(arrays are always truthy, including the empty one). -/
def jsOrArr (o : Option (List α)) (dflt : List α) : List α :=
  match o with
  | some l => l
  | none => dflt

/-- The idiom `o?.slice(0, n).join(sep) || dflt`. -/
def optSliceJoin (o : Option (List String)) (n : Nat) (sep dflt : String) : String :=
  match o with
  | some l =>
    let s := String.intercalate sep (l.take n)
    if s = "" then dflt else s
  | none => dflt

/-- `o?.toLowerCase().includes(pat)` for an optional string. -/
def optLowerIncludes (o : Option String) (pat : String) : Bool :=
  match o with
  | some s => jsIncludesStr s.toLower pat
  | none => false

/-- The digits value of a digit list. -/
def digitsVal (ds : List Char) : Nat := ds.foldl (fun n c => n * 10 + (c.toNat - 48)) 0

/-- `parseFloat` on a GPA-like string: skip leading whitespace, optional
sign, integer digits, optional fraction.  `none` models `NaN` (every
comparison against `NaN` is false).  Exponent notation and `Infinity` are
not modelled — the source applies this only to GPA strings. -/
def jsParseFloat (s : String) : Option Rat :=
  let l := s.data.dropWhile isJsWs
  let sgn : Rat := match l with
    | '-' :: _ => -1
    | _ => 1
  let l1 := match l with
    | '-' :: t => t
    | '+' :: t => t
    | _ => l
  let intDigits := l1.takeWhile Char.isDigit
  let rest := l1.dropWhile Char.isDigit
  let fracDigits := match rest with
    | '.' :: t => t.takeWhile Char.isDigit
    | _ => []
  if intDigits.isEmpty && fracDigits.isEmpty then none
  else some (sgn * ((digitsVal intDigits : Rat) +
    (digitsVal fracDigits : Rat) / ((10 : Rat) ^ fracDigits.length)))

/-! ## Local Synthesis Engine (source lines 881-1138) -/

/-- The fresher summary template table of `generateSummary`
(source lines 893-900), including its generic fallback entry. -/
def fresherSummaryFor (roleSpecific skillList : String) : String :=
  if roleSpecific = "Software Engineer" then
    "Recent Computer Science graduate with strong foundation in " ++ skillList ++
    ". Passionate about developing innovative software solutions and eager to apply academic knowledge to real-world challenges. Seeking to contribute fresh perspectives and grow within a dynamic development team."
  else if roleSpecific = "Frontend Developer" then
    "Creative and detail-oriented graduate with expertise in " ++ skillList ++
    ". Passionate about creating intuitive user interfaces and exceptional user experiences. Eager to apply modern frontend development skills to build engaging web applications."
  else if roleSpecific = "Backend Developer" then
    "Analytical and problem-solving graduate with strong foundation in " ++ skillList ++
    ". Passionate about building robust server-side applications and optimizing system performance. Seeking to apply backend development skills to create scalable solutions."
  else if roleSpecific = "Full Stack Developer" then
    "Versatile and motivated graduate with comprehensive skills in " ++ skillList ++
    ". Passionate about end-to-end development and creating complete web solutions. Eager to contribute to both frontend and backend development projects."
  else if roleSpecific = "Data Scientist" then
    "Analytical graduate with strong foundation in " ++ skillList ++
    " and statistical analysis. Passionate about extracting insights from data and building predictive models. Seeking to apply data science skills to solve complex business problems."
  else if roleSpecific = "Product Manager" then
    "Strategic and communication-focused graduate with understanding of " ++ skillList ++
    ". Passionate about product development and user-centric solutions. Eager to apply analytical and leadership skills to drive product success."
  else
    "Recent " ++ roleSpecific ++ " graduate with strong foundation in " ++ skillList ++
    ". Eager to apply academic knowledge and passion for technology to contribute to innovative projects and grow within a dynamic team."

/-- The experienced summary template table of `generateSummary`
(source lines 906-915), including its generic fallback entry. -/
def experiencedSummaryFor (roleSpecific skillList : String) (expCount : Nat) : String :=
  if roleSpecific = "Software Engineer" then
    "Results-driven Software Engineer with " ++ toString expCount ++
    "+ years of experience in " ++ skillList ++
    ". Proven track record of delivering high-quality software solutions and leading development projects. Passionate about code optimization, mentorship, and implementing best practices."
  else if roleSpecific = "Frontend Developer" then
    "Creative Frontend Developer with " ++ toString expCount ++
    "+ years of expertise in " ++ skillList ++
    ". Specialized in building responsive, user-centric interfaces and enhancing user experience. Committed to staying current with frontend trends and accessibility standards."
  else if roleSpecific = "Backend Developer" then
    "Experienced Backend Developer with " ++ toString expCount ++
    "+ years specializing in " ++ skillList ++
    ". Expert in designing scalable architectures, optimizing database performance, and implementing robust API solutions. Focus on system reliability and security."
  else if roleSpecific = "Full Stack Developer" then
    "Versatile Full Stack Developer with " ++ toString expCount ++
    "+ years of comprehensive experience in " ++ skillList ++
    ". Proven ability to handle end-to-end development from concept to deployment. Passionate about creating seamless user experiences and robust backend systems."
  else if roleSpecific = "Data Scientist" then
    "Experienced Data Scientist with " ++ toString expCount ++
    "+ years in " ++ skillList ++
    " and machine learning. Expert in data analysis, model development, and generating actionable insights. Track record of driving data-driven decision making and business value."
  else if roleSpecific = "Product Manager" then
    "Strategic Product Manager with " ++ toString expCount ++
    "+ years of experience in product lifecycle management. Skilled in cross-functional collaboration, user research, and driving product vision. Proven ability to deliver products that meet market needs and business objectives."
  else
    "Experienced " ++ roleSpecific ++ " with expertise in " ++ skillList ++
    ". Proven track record of delivering high-quality solutions and driving project success."

/-- `generateSummary` (source lines 881-916). -/
def generateSummary (personalInfo : Option PersonalInfo) (skills : Option Skills)
    (experience : Option (List Experience)) (isFresher : Bool) (role : Option String) : String :=
  let roleFalsy := match role with
    | none => true
    | some r => r = ""
  if roleFalsy || role = some "Professional" then
    jsOrStr (personalInfo.bind PersonalInfo.summary)
      "Professional with expertise in various fields. Committed to delivering high-quality results and continuous learning."
  else
    let skillList := optSliceJoin (skills.bind Skills.technical) 3 ", " "programming"
    let roleSpecific := jsOrStr role "Professional"
    let expCount := match experience with
      | some l => l.length
      | none => 0
    if isFresher then fresherSummaryFor roleSpecific skillList
    else experiencedSummaryFor roleSpecific skillList expCount

/-- `generateObjective` (source lines 918-920). -/
def generateObjective (_personalInfo : Option PersonalInfo) (education : Option (List Education))
    (skills : Option Skills) (role : Option String) : String :=
  let eduField := match education with
    | some (e :: _) => e.field
    | _ => none
  "Recent graduate seeking an entry-level " ++ jsInterp role ++
  " position to leverage academic background in " ++ jsOrStr eduField "Computer Science" ++
  " and technical skills in " ++
  optSliceJoin (skills.bind Skills.technical) 2 " and " "software development" ++ "."

/-- `generateEducationAchievements` (source lines 922-940). -/
def generateEducationAchievements (edu : Education) : List String :=
  let a1 : List String :=
    match edu.gpa with
    | some g =>
      let gpaHigh : Bool := match jsParseFloat g with
        | some q => decide ((35 : Rat)/10 ≤ q)
        | none => false
      if g ≠ "" && gpaHigh then ["Graduated with GPA: " ++ g]
      else []
    | none => []
  let a2 : List String :=
    if optLowerIncludes edu.degree "computer" || optLowerIncludes edu.field "computer" then
      ["Completed comprehensive coursework in algorithms, data structures, and software engineering"]
    else []
  let a3 : List String :=
    if optLowerIncludes edu.degree "business" || optLowerIncludes edu.field "business" then
      ["Completed core business curriculum with focus on strategic management and leadership"]
    else []
  a1 ++ a2 ++ a3 ++ ["Successfully completed academic program with strong performance"]

/-- The nested course-summary template table of `generateCourseSummary`
(source lines 949-964): field of study, then target role. -/
def courseSummaryLookup (field : String) (targetRole : Option String) : Option String :=
  match targetRole with
  | none => none
  | some role =>
    if field = "Computer Science" then
      if role = "Software Engineer" then some
        "Completed rigorous coursework in software engineering principles, algorithms, data structures, and system design. Developed strong foundation in programming languages, database management, and software development methodologies. Gained hands-on experience through lab sessions and collaborative projects focusing on scalable application development."
      else if role = "Frontend Developer" then some
        "Focused on web development, user interface design, and interactive systems. Studied JavaScript frameworks, responsive design principles, and modern frontend technologies. Completed projects emphasizing user experience design, accessibility standards, and performance optimization for web applications."
      else if role = "Backend Developer" then some
        "Specialized in server-side architecture, database systems, and API development. Completed coursework in distributed systems, cloud computing, and backend optimization. Gained practical experience in building scalable server solutions and managing complex data infrastructures."
      else if role = "Data Scientist" then some
        "Emphasized statistical analysis, machine learning, and data visualization. Studied advanced mathematics, programming for data analysis, and predictive modeling techniques. Completed hands-on projects working with real datasets to extract actionable insights and build predictive models."
      else none
    else if field = "Business Administration" then
      if role = "Product Manager" then some
        "Completed comprehensive business curriculum with focus on product strategy, market analysis, and project management. Developed skills in business intelligence, user research, and cross-functional leadership. Participated in case studies analyzing successful product launches and go-to-market strategies."
      else if role = "Software Engineer" then some
        "Combined business acumen with technical foundation. Studied business process optimization, technology management, and strategic planning for tech organizations. Gained understanding of how technical solutions drive business value and competitive advantage."
      else none
    else if field = "Information Technology" then
      if role = "Software Engineer" then some
        "Gained practical experience in system administration, network management, and IT infrastructure. Developed understanding of enterprise systems and technology operations. Completed hands-on labs focusing on system security, cloud deployment, and IT service management."
      else if role = "Backend Developer" then some
        "Focused on infrastructure, cloud services, and system architecture. Studied DevOps principles, security protocols, and scalable system design. Acquired skills in managing complex IT environments and optimizing system performance."
      else none
    else none

/-- `generateCourseSummary` (source lines 942-970). -/
def generateCourseSummary (education : Option (List Education)) (targetRole : Option String) : String :=
  match education with
  | none => ""
  | some [] => ""
  | some (edu :: _) =>
    let field := jsOrStr edu.field "General Studies"
    let degree := jsOrStr edu.degree "Degree"
    let defaultSummary :=
      "Pursued " ++ degree ++ " in " ++ field ++
      " with comprehensive curriculum covering foundational principles and practical applications. Developed analytical thinking, problem-solving abilities, and domain expertise relevant to " ++
      jsOrStr targetRole "professional roles" ++
      " through coursework, projects, and collaborative learning experiences."
    (courseSummaryLookup field targetRole).getD defaultSummary

/-- `getPositionType` (source lines 1011-1018). -/
def getPositionType (position : String) : String :=
  let pos := position.toLower
  if jsIncludesStr pos "software" || jsIncludesStr pos "developer" || jsIncludesStr pos "engineer" then
    "Software Engineer"
  else if jsIncludesStr pos "frontend" || jsIncludesStr pos "ui" || jsIncludesStr pos "ux" then
    "Frontend Developer"
  else if jsIncludesStr pos "backend" || jsIncludesStr pos "server" || jsIncludesStr pos "api" then
    "Backend Developer"
  else if jsIncludesStr pos "product" || jsIncludesStr pos "manager" then
    "Product Manager"
  else "General"

/-- The achievement-template table of `generateExperienceAchievements`
(source lines 975-1000). -/
def experienceAchievementTemplates (positionType : String) : Option (List String) :=
  if positionType = "Software Engineer" then some
    [ "Developed and deployed production-ready code following best practices"
    , "Collaborated in agile teams to deliver features on schedule"
    , "Optimized application performance improving user experience"
    , "Participated in code reviews ensuring quality standards" ]
  else if positionType = "Frontend Developer" then some
    [ "Built responsive user interfaces with modern frameworks"
    , "Improved website performance and accessibility standards"
    , "Collaborated with UX teams to implement design systems"
    , "Developed reusable components following best practices" ]
  else if positionType = "Backend Developer" then some
    [ "Designed and implemented RESTful APIs and microservices"
    , "Optimized database queries improving system performance"
    , "Ensured system security and data protection protocols"
    , "Managed cloud infrastructure and deployment pipelines" ]
  else if positionType = "Product Manager" then some
    [ "Led product strategy and roadmap development"
    , "Conducted user research and market analysis"
    , "Collaborated with cross-functional teams for product delivery"
    , "Defined product requirements and success metrics" ]
  else none

/-- `generateExperienceAchievements` (source lines 972-1009). -/
def generateExperienceAchievements (exp : Experience) (_skills : Option Skills) : List String :=
  let positionType := getPositionType exp.position
  (experienceAchievementTemplates positionType).getD
    [ "Successfully contributed to " ++ exp.position ++ " responsibilities"
    , "Collaborated effectively with team members"
    , "Demonstrated problem-solving skills" ]

/-- `getAchievementType` (source lines 1036-1044). -/
def getAchievementType (title : String) : String :=
  let t := title.toLower
  if jsIncludesStr t "certified" || jsIncludesStr t "certification" then "Certification"
  else if jsIncludesStr t "award" || jsIncludesStr t "recognition" || jsIncludesStr t "employee" then "Award"
  else if jsIncludesStr t "leadership" || jsIncludesStr t "lead" || jsIncludesStr t "manager" then "Leadership"
  else if jsIncludesStr t "hackathon" || jsIncludesStr t "project" || jsIncludesStr t "technical" then "Technical"
  else if jsIncludesStr t "dean" || jsIncludesStr t "scholar" || jsIncludesStr t "academic" then "Academic"
  else "General"

/-- The enhanced-description table of `enhanceAchievementDescription`
(source lines 1025-1031). -/
def achievementDescriptionTemplates (achievementType title : String) : Option String :=
  if achievementType = "Certification" then some
    ("Successfully achieved " ++ title ++ " demonstrating expertise and commitment to professional development. Validated advanced skills through comprehensive examination and practical application. This certification confirms proficiency in industry best practices and cutting-edge technologies relevant to modern workplace demands.")
  else if achievementType = "Award" then some
    ("Recognized with " ++ title ++ " for outstanding performance and significant contributions to the organization. This honor reflects exceptional dedication to excellence, innovation, and consistent delivery of high-quality results. Selected among peers for demonstrating leadership qualities and going beyond expectations.")
  else if achievementType = "Leadership" then some
    ("Demonstrated exceptional leadership abilities earning " ++ title ++ ". Successfully guided cross-functional teams, drove strategic initiatives, and delivered measurable results through visionary planning and effective execution. Fostered collaborative environment and mentored team members to achieve collective goals.")
  else if achievementType = "Technical" then some
    ("Achieved " ++ title ++ " showcasing advanced technical proficiency and innovative problem-solving capabilities. Applied cutting-edge solutions to complex challenges, resulting in improved system performance, reduced costs, or enhanced user experience. Demonstrated mastery of modern technologies and best practices.")
  else if achievementType = "Academic" then some
    ("Earned " ++ title ++ " through academic excellence and scholarly achievement. Demonstrated strong analytical abilities, intellectual curiosity, and dedication to learning. This accomplishment reflects deep understanding of subject matter and ability to apply theoretical knowledge to practical scenarios.")
  else none

/-- `enhanceAchievementDescription` (source lines 1020-1034). -/
def enhanceAchievementDescription (ach : Achievement) : String :=
  match ach.description with
  | some d => if d ≠ "" then d else
      (achievementDescriptionTemplates (getAchievementType ach.title) ach.title).getD
        ("Achieved " ++ ach.title ++ " through dedication, skill development, and consistent performance. This accomplishment demonstrates commitment to excellence, continuous learning, and the ability to deliver outstanding results in challenging environments. Recognized for valuable contributions and positive impact on organizational objectives.")
  | none =>
      (achievementDescriptionTemplates (getAchievementType ach.title) ach.title).getD
        ("Achieved " ++ ach.title ++ " through dedication, skill development, and consistent performance. This accomplishment demonstrates commitment to excellence, continuous learning, and the ability to deliver outstanding results in challenging environments. Recognized for valuable contributions and positive impact on organizational objectives.")

/-- `getProjectType` (source lines 1064-1073). -/
def getProjectType (projectName : String) : String :=
  let nm := projectName.toLower
  if jsIncludesStr nm "ecommerce" || jsIncludesStr nm "shop" || jsIncludesStr nm "store" then
    "E-commerce"
  else if jsIncludesStr nm "social" || jsIncludesStr nm "chat" || jsIncludesStr nm "messaging" then
    "Social Media"
  else if jsIncludesStr nm "ai" || jsIncludesStr nm "machine" || jsIncludesStr nm "ml" || jsIncludesStr nm "prediction" then
    "AI/ML"
  else if jsIncludesStr nm "app" && (jsIncludesStr nm "mobile" || jsIncludesStr nm "ios" || jsIncludesStr nm "android") then
    "Mobile App"
  else if jsIncludesStr nm "dashboard" || jsIncludesStr nm "analytics" || jsIncludesStr nm "visualization" then
    "Dashboard"
  else if jsIncludesStr nm "web" || jsIncludesStr nm "website" || jsIncludesStr nm "portal" then
    "Web App"
  else "General"

/-- The enhanced-description table of `enhanceProjectDescription`
(source lines 1052-1059). -/
def projectDescriptionTemplates (projectType techList : String) : Option String :=
  if projectType = "E-commerce" then some
    ("Developed a full-featured e-commerce platform utilizing " ++ techList ++ ". Implemented secure payment processing, user authentication, and responsive design to deliver seamless shopping experience. Engineered scalable architecture supporting high-traffic transactions and real-time inventory management.")
  else if projectType = "Social Media" then some
    ("Built a dynamic social media application using " ++ techList ++ ". Engineered real-time messaging, content sharing, and user engagement features with scalable architecture. Implemented robust notification system and optimized database performance for seamless user interactions.")
  else if projectType = "AI/ML" then some
    ("Created an intelligent AI-powered solution leveraging " ++ techList ++ ". Implemented machine learning algorithms, data processing pipelines, and predictive analytics for actionable insights. Developed automated model training pipeline and achieved high accuracy in prediction tasks.")
  else if projectType = "Mobile App" then some
    ("Developed a cross-platform mobile application using " ++ techList ++ ". Designed intuitive user interfaces, offline functionality, and optimized performance for mobile devices. Successfully deployed to app stores with positive user ratings and minimal crash reports.")
  else if projectType = "Web App" then some
    ("Architected and deployed a responsive web application with " ++ techList ++ ". Focused on user experience, performance optimization, and scalable backend integration. Implemented progressive web app features and ensured cross-browser compatibility.")
  else if projectType = "Dashboard" then some
    ("Engineered a comprehensive analytics dashboard using " ++ techList ++ ". Visualized complex data, implemented real-time updates, and created actionable business intelligence tools. Developed interactive charts and customizable reporting features.")
  else none

/-- `enhanceProjectDescription` (source lines 1046-1062). -/
def enhanceProjectDescription (proj : Project) (_skills : Option Skills) : String :=
  let generated :=
    let techList := optSliceJoin proj.technologies 3 ", " "modern tools"
    (projectDescriptionTemplates (getProjectType proj.name) techList).getD
      ("Developed " ++ proj.name ++ " utilizing technologies including " ++ techList ++
       ". Focused on delivering high-quality solutions with attention to user experience, technical excellence, and scalable architecture. Implemented best practices and modern development methodologies throughout the project lifecycle.")
  match proj.description with
  | some d => if d ≠ "" then d else generated
  | none => generated

/-- The outcome-template table of `generateProjectOutcomes`
(source lines 1078-1109). -/
def projectOutcomeTemplates (projectType : String) : Option (List String) :=
  if projectType = "E-commerce" then some
    [ "Increased conversion rates by 25% through optimized user flow"
    , "Reduced page load time by 40% improving user experience"
    , "Successfully processed 1000+ transactions with zero errors" ]
  else if projectType = "Social Media" then some
    [ "Achieved 500+ active users within first month of launch"
    , "Implemented real-time messaging with 99.9% uptime"
    , "Reduced server response time by 60% through optimization" ]
  else if projectType = "AI/ML" then some
    [ "Achieved 92% accuracy in predictive modeling"
    , "Processed 1M+ data points with automated pipeline"
    , "Reduced manual analysis time by 80% through automation" ]
  else if projectType = "Mobile App" then some
    [ "Achieved 4.8-star rating with 10K+ downloads"
    , "Optimized battery usage resulting in 30% longer device life"
    , "Successfully deployed to both iOS and Android platforms" ]
  else if projectType = "Web App" then some
    [ "Improved user engagement by 45% with intuitive design"
    , "Achieved 99.5% uptime with robust error handling"
    , "Reduced bounce rate by 35% through performance optimization" ]
  else if projectType = "Dashboard" then some
    [ "Enabled data-driven decisions reducing analysis time by 70%"
    , "Visualized 10K+ data points with real-time updates"
    , "Improved team productivity by 40% with actionable insights" ]
  else none

/-- `generateProjectOutcomes` (source lines 1075-1118). -/
def generateProjectOutcomes (proj : Project) : List String :=
  (projectOutcomeTemplates (getProjectType proj.name)).getD
    [ "Successfully delivered project on time and within budget"
    , "Met all specified requirements and exceeded expectations"
    , "Demonstrated technical proficiency and problem-solving skills" ]

/-- `generateImprovements` (source lines 1120-1138). -/
def generateImprovements (personalInfo : Option PersonalInfo) (skills : Option Skills)
    (experience : Option (List Experience)) (isFresher : Bool) (_role : Option String) : List String :=
  let i1 : List String :=
    if !(match personalInfo.bind PersonalInfo.summary with
          | some s => s ≠ ""
          | none => false) then
      ["Add a professional summary to highlight your strengths"]
    else []
  let i2 : List String :=
    match skills.bind Skills.technical with
    | some l => if l.length < 5 then
        ["Consider adding more technical skills to showcase your expertise"]
      else []
    | none => []
  let i3 : List String :=
    if isFresher && (match experience with
        | some l => l.length = 0
        | none => true) then
      ["Add internships or relevant projects to strengthen your profile"]
    else []
  (i1 ++ i2 ++ i3 ++ ["Quantify achievements with specific metrics when possible"]).take 3

/-! ## Local enhancement of the full resume (source lines 820-879) -/

/-- Truthiness of an optional string (`undefined` and `''` are falsy). -/
def truthyOpt (o : Option String) : Bool :=
  match o with
  | some s => s ≠ ""
  | none => false

/-- The JavaScript check `xs && xs.length > 0` (equivalently
`xs?.length > 0`) on a possibly-undefined array. -/
def optLenPos (o : Option (List α)) : Bool :=
  match o with
  | some l => decide (0 < l.length)
  | none => false

/-- The education item map of `enhanceContentLocally` (source lines
831-835): `{...edu, achievements: edu.achievements || gen, description:
edu.description || gen}`. -/
def enhanceEducationItem (education : Option (List Education)) (effectiveRole : Option String)
    (edu : Education) : Education :=
  { edu with
    achievements := some (jsOrArr edu.achievements (generateEducationAchievements edu))
    description := some (jsOrStr edu.description (generateCourseSummary education effectiveRole)) }

/-- The experience item map of `enhanceContentLocally` (source lines
837-840). -/
def enhanceExperienceItem (skills : Option Skills) (exp : Experience) : Experience :=
  { exp with
    achievements := some (jsOrArr exp.achievements (generateExperienceAchievements exp skills)) }

/-- The project item map used by `enhanceContentLocally` (source lines
845-849) and, identically, by both branches of `enhanceMultipleSections`
(source lines 428-432 and 460-464). -/
def enhanceProjectItem (skills : Option Skills) (proj : Project) : Project :=
  { proj with
    description := some (jsOrStr proj.description (enhanceProjectDescription proj skills))
    outcomes := some (jsOrArr proj.outcomes (generateProjectOutcomes proj)) }

/-- The achievement item map used by `enhanceContentLocally` (source
lines 850-853) and by both branches of `enhanceMultipleSections` (source
lines 437-441 and 468-472). -/
def enhanceAchievementItem (ach : Achievement) : Achievement :=
  { ach with
    description := some (jsOrStr ach.description (enhanceAchievementDescription ach)) }

/-- The `skills` object of the locally enhanced content. -/
structure EnhancedSkills where
  technical : List String
  language : List String
deriving DecidableEq, Repr

/-- The `personalInfo` object of the locally enhanced content. -/
structure EnhancedPersonalInfo where
  summary : String
  objective : Option String
deriving DecidableEq, Repr

/-- The `enhancedContent` object built by `enhanceContentLocally`
(source lines 826-857). -/
structure EnhancedContent where
  personalInfo : EnhancedPersonalInfo
  education : List Education
  experience : List Experience
  skills : EnhancedSkills
  projects : List Project
  achievements : List Achievement
  certifications : List String
  improvements : List String
  courseSummary : String
deriving DecidableEq, Repr

/-- The return object of `enhanceContentLocally` (source lines 872-878). -/
structure LocalGenResult where
  success : Bool
  generatedContent : EnhancedContent
  aiPrompt : String
  enhancements : List String
  enhancementMethod : String
deriving DecidableEq, Repr

/-- `enhanceContentLocally` (source lines 820-879). -/
def enhanceContentLocally (data : ResumeData) : LocalGenResult :=
  let effectiveRole := jsOrStr data.roleApplyingFor "Professional"
  let enhancedContent : EnhancedContent :=
    { personalInfo :=
        { summary := jsOrStr (data.personalInfo.bind PersonalInfo.summary)
            (generateSummary data.personalInfo data.skills data.experience data.isFresher
              (some effectiveRole))
        , objective := if data.isFresher then
            some (generateObjective data.personalInfo data.education data.skills
              (some effectiveRole))
          else none }
    , education := (data.education.getD []).map
        (enhanceEducationItem data.education (some effectiveRole))
    , experience := if data.isFresher then [] else
        (data.experience.getD []).map (enhanceExperienceItem data.skills)
    , skills :=
        { technical := (data.skills.bind Skills.technical).getD []
        , language := (data.skills.bind Skills.languages).getD [] }
    , projects := (data.projects.getD []).map (enhanceProjectItem data.skills)
    , achievements := (data.achievements.getD []).map enhanceAchievementItem
    , certifications := []
    , improvements := generateImprovements data.personalInfo data.skills data.experience
        data.isFresher (some effectiveRole)
    , courseSummary := generateCourseSummary data.education (some effectiveRole) }
  let e1 : List String :=
    if !truthyOpt (data.personalInfo.bind PersonalInfo.summary) then
      ["Generated professional summary"] else []
  let e2 : List String :=
    if data.isFresher && !truthyOpt (data.personalInfo.bind PersonalInfo.objective) then
      ["Created career objective"] else []
  let e3 : List String :=
    if optLenPos data.projects then ["Enhanced project descriptions"] else []
  let e4 : List String :=
    if optLenPos data.achievements then ["Improved achievement descriptions"] else []
  let e5 : List String :=
    if optLenPos data.education then ["Added education details"] else []
  let enhancements := e1 ++ e2 ++ e3 ++ e4 ++ e5
  { success := true
  , generatedContent := enhancedContent
  , aiPrompt := "Enhanced resume for " ++ effectiveRole ++ " role (local enhancement) - " ++
      String.intercalate ", " enhancements
  , enhancements := enhancements
  , enhancementMethod := "local" }

/-! ## Profile summary (source lines 330-416) -/

/-- The result shape of `generateProfileSummary` (both paths). -/
structure ProfileSummaryResult where
  success : Bool
  summary : String
  objective : Option String
deriving DecidableEq, Repr

/-- `generateProfileSummaryLocally` (source lines 393-416): forces
generation with a `{ summary: null }` personal-info object. -/
def generateProfileSummaryLocally (data : ResumeData) : ProfileSummaryResult :=
  let forced : PersonalInfo := { summary := none, objective := none, email := none, phone := none }
  let empty : PersonalInfo := { summary := none, objective := none, email := none, phone := none }
  { success := true
  , summary := generateSummary (some forced) data.skills data.experience data.isFresher
      data.roleApplyingFor
  , objective := if data.isFresher then
      some (generateObjective (some empty) data.education data.skills data.roleApplyingFor)
    else none }

/-! ## Multi-section enhancement (source lines 418-484) -/

/-- The `sections` payload of `enhanceMultipleSections`. -/
structure Sections where
  projects : Option (List Project)
  achievements : Option (List Achievement)
  education : Option (List Education)
  skills : Option Skills
deriving DecidableEq, Repr

/-- The `enhancedSections` object. -/
structure EnhancedSections where
  projects : Option (List Project)
  achievements : Option (List Achievement)
  courseSummary : Option String
deriving DecidableEq, Repr

/-- The result shape of `enhanceMultipleSections` (both paths). -/
structure MultiSectionResult where
  success : Bool
  enhancedSections : EnhancedSections
deriving DecidableEq, Repr

/-- `enhanceSectionsLocally` (source lines 455-484).  The remote branch of
`enhanceMultipleSections` (source lines 423-452) performs this identical
computation inline. -/
def enhanceSectionsLocally (sections : Sections) (ctxRole : Option String) : MultiSectionResult :=
  { success := true
  , enhancedSections :=
    { projects := sections.projects.map (List.map (enhanceProjectItem sections.skills))
    , achievements := sections.achievements.map (List.map enhanceAchievementItem)
    , courseSummary := sections.education.map
        (fun edus => generateCourseSummary (some edus) ctxRole) } }

/-! ## Local ATS scoring (source lines 1289-1476) -/

/-! ### Binary64 arithmetic

`calculateResumeCompleteness` accumulates its weights in JavaScript
number arithmetic (IEEE-754 binary64), and the accumulated total weight
comes out as `1 + 2^-52` rather than exactly 1; the quotient is then
compared against the double nearest 0.4.  That rounding decides which
scoring band reachable inputs fall into (a resume whose exact weighted
sum is 0.4 computes a quotient just below the threshold), so the
completeness computation is modelled with exact dyadic rationals and
explicit round-to-nearest, ties-to-even at 53 significant bits.
Subnormal and overflowing values (below `2^-1022` in magnitude, or at
`2^1024` and beyond) are not given special treatment; every value of
this computation lies far inside the normal range. -/

/-- `2^e` as a rational, for an integer exponent. -/
def pow2 (e : Int) : Rat :=
  if 0 ≤ e then (2 : Rat) ^ e.toNat else ((2 : Rat) ^ (-e).toNat)⁻¹

/-- Round a rational to an integer: to nearest, half to even. -/
def roundHalfEven (x : Rat) : Int :=
  let fl := ⌊x⌋
  let frac := x - (fl : Rat)
  if frac < 1/2 then fl
  else if (1 : Rat)/2 < frac then fl + 1
  else if fl % 2 = 0 then fl else fl + 1

/-- Round a positive rational to 53 significant bits (to nearest, half to
even): binary64 significand rounding. -/
def roundPos (q : Rat) : Rat :=
  let e : Int := Int.log 2 q
  ((roundHalfEven (q * pow2 (52 - e)) : Int) : Rat) * pow2 (e - 52)

/-- Round a rational to the nearest IEEE-754 binary64 value (round to
nearest, ties to even). -/
def roundDouble (q : Rat) : Rat :=
  if q = 0 then 0
  else if q < 0 then -roundPos (-q)
  else roundPos q

/-- JavaScript addition of two doubles: the exact sum, rounded. -/
def jsAdd (x y : Rat) : Rat := roundDouble (x + y)

/-- JavaScript division of two doubles: the exact quotient, rounded. -/
def jsDiv (x y : Rat) : Rat := roundDouble (x / y)

/-- The binary64 value denoted by a decimal literal in the source. -/
def dbl (q : Rat) : Rat := roundDouble q

/-- `calculateResumeCompleteness` (source lines 1331-1374): accumulates
weights for the present sections into `completeness` and the full weights
into `totalChecks`, in source order and in binary64 arithmetic, and
returns the rounded quotient.  In binary64 the total weight is
`1 + 2^-52`, not 1. -/
def calculateResumeCompleteness (d : ResumeData) : Rat :=
  let c0 : Rat := 0
  let cP := match d.personalInfo with
    | some pi =>
      let a := if truthyOpt pi.summary then jsAdd c0 (dbl ((1 : Rat)/10)) else c0
      let b := if truthyOpt pi.email then jsAdd a (dbl ((5 : Rat)/100)) else a
      if truthyOpt pi.phone then jsAdd b (dbl ((5 : Rat)/100)) else b
    | none => c0
  let cE := if optLenPos d.education then jsAdd cP (dbl ((2 : Rat)/10)) else cP
  let cX := if optLenPos d.experience then jsAdd cE (dbl ((2 : Rat)/10)) else cE
  let cS := if optLenPos (d.skills.bind Skills.technical) then jsAdd cX (dbl ((15 : Rat)/100)) else cX
  let cJ := if optLenPos d.projects then jsAdd cS (dbl ((15 : Rat)/100)) else cS
  let cA := if optLenPos d.achievements then jsAdd cJ (dbl ((1 : Rat)/10)) else cJ
  let totalChecks :=
    jsAdd (jsAdd (jsAdd (jsAdd (jsAdd (jsAdd 0 (dbl ((2 : Rat)/10))) (dbl ((2 : Rat)/10)))
      (dbl ((2 : Rat)/10))) (dbl ((15 : Rat)/100))) (dbl ((15 : Rat)/100))) (dbl ((1 : Rat)/10))
  jsDiv cA totalChecks

/-- The completeness quotient as the spec words it: the exact weighted
sum of the section-presence checks divided by a total weight of exactly
1.  This definition follows the spec's description, not the source; it
exists to be compared with the source-faithful binary64
`calculateResumeCompleteness` above, from which it differs at inputs
whose exact weighted sum is 0.4. -/
def exactCompletenessValue (d : ResumeData) : Rat :=
  let c1 : Rat := match d.personalInfo with
    | some pi =>
      (if truthyOpt pi.summary then (1 : Rat)/10 else 0) +
      (if truthyOpt pi.email then (5 : Rat)/100 else 0) +
      (if truthyOpt pi.phone then (5 : Rat)/100 else 0)
    | none => 0
  let c2 : Rat := if optLenPos d.education then (2 : Rat)/10 else 0
  let c3 : Rat := if optLenPos d.experience then (2 : Rat)/10 else 0
  let c4 : Rat := if optLenPos (d.skills.bind Skills.technical) then (15 : Rat)/100 else 0
  let c5 : Rat := if optLenPos d.projects then (15 : Rat)/100 else 0
  let c6 : Rat := if optLenPos d.achievements then (1 : Rat)/10 else 0
  let completeness := c1 + c2 + c3 + c4 + c5 + c6
  let totalChecks : Rat := (2 : Rat)/10 + 2/10 + 2/10 + 15/100 + 15/100 + 1/10
  completeness / totalChecks

/-- `calculateResumeLength` (source lines 1376-1417): the total character
count of the free-text fields. -/
def calculateResumeLength (d : ResumeData) : Nat :=
  let lPersonal := match d.personalInfo with
    | some pi =>
      (match pi.summary with
        | some s => s.length
        | none => 0) +
      (match pi.objective with
        | some s => s.length
        | none => 0)
    | none => 0
  let lEdu := ((d.education.getD []).map fun edu =>
    (match edu.description with
      | some s => s.length
      | none => 0) +
    (match edu.achievements with
      | some l => (String.intercalate " " l).length
      | none => 0)).sum
  let lExp := ((d.experience.getD []).map fun exp =>
    (match exp.description with
      | some (JStrings.one s) => s.length
      | some (JStrings.many l) => (String.intercalate " " l).length
      | none => 0) +
    (match exp.achievements with
      | some l => (String.intercalate " " l).length
      | none => 0)).sum
  let lProj := ((d.projects.getD []).map fun proj =>
    (match proj.description with
      | some s => s.length
      | none => 0) +
    (match proj.outcomes with
      | some l => (String.intercalate " " l).length
      | none => 0)).sum
  let lAch := ((d.achievements.getD []).map fun ach =>
    match ach.description with
    | some s => s.length
    | none => 0).sum
  lPersonal + lEdu + lExp + lProj + lAch

/-- Ordered set insertion, modelling `Set.prototype.add` followed by
`Array.from` (insertion order, duplicates dropped). -/
def setAdd (l : List String) (x : String) : List String :=
  if x ∈ l then l else l ++ [x]

/-- `summary.toLowerCase().split(/\s+/)`: split on whitespace runs; a
leading (or trailing) run contributes an empty token, as in JavaScript. -/
def jsSplitWs : List Char → List String
  | [] => [""]
  | c :: rest =>
    if isJsWs c then
      "" :: jsSplitWs (rest.dropWhile isJsWs)
    else
      match jsSplitWs rest with
      | t :: ts => (⟨[c]⟩ ++ t) :: ts
      | [] => [⟨[c]⟩]
termination_by l => l.length
decreasing_by
  all_goals simp only [List.length_cons]
  · have hle : (rest.dropWhile isJsWs).length ≤ rest.length :=
      (List.dropWhile_suffix isJsWs).sublist.length_le
    omega
  · omega

/-- `extractKeywords` (source lines 1445-1462): lower-cased summary words
of length greater than 3, then the lower-cased technical skills, collected
into an insertion-ordered set. -/
def extractKeywords (d : ResumeData) : List String :=
  let k1 : List String :=
    match d.personalInfo.bind PersonalInfo.summary with
    | some s =>
      if s ≠ "" then
        (jsSplitWs s.toLower.data).foldl
          (fun acc w => if 3 < w.length then setAdd acc w else acc) []
      else []
    | none => []
  match d.skills.bind Skills.technical with
  | some ts => ts.foldl (fun acc sk => setAdd acc sk.toLower) k1
  | none => k1

/-- The per-role expected-keyword table of `getMissingKeywords`
(source lines 1465-1470). -/
def roleKeywordTable (role : String) : Option (List String) :=
  if role = "Software Engineer" then
    some ["javascript", "react", "node", "git", "api", "database", "html", "css"]
  else if role = "Frontend Developer" then
    some ["javascript", "react", "html", "css", "redux", "webpack", "responsive"]
  else if role = "Backend Developer" then
    some ["node", "express", "mongodb", "sql", "api", "rest", "graphql"]
  else if role = "Full Stack Developer" then
    some ["javascript", "react", "node", "express", "mongodb", "sql", "git"]
  else none

/-- `getMissingKeywords` (source lines 1464-1476): expected keywords for
the role (defaulting to the Software Engineer table) that do not occur in
the lower-cased keyword set. -/
def getMissingKeywords (role : Option String) (keywords : List String) : List String :=
  let expectedKeywords := (match role with
    | some r => roleKeywordTable r
    | none => none).getD ["javascript", "react", "node", "git", "api", "database", "html", "css"]
  let keywordSet := keywords.map String.toLower
  expectedKeywords.filter fun k => !(keywordSet.contains k.toLower)

/-- `generateLocalSuggestions` (source lines 1419-1443); `score` is the
pre-rounding score value. -/
def generateLocalSuggestions (d : ResumeData) (score : Rat) (targetRole : Option String) :
    List String :=
  let s1 : List String :=
    if score < 75 then
      ["Add more " ++ jsOrStr targetRole "role" ++ "-specific keywords to improve ATS matching"]
    else []
  let s2 : List String :=
    if !truthyOpt (d.personalInfo.bind PersonalInfo.summary) then
      ["Add a professional summary to highlight your strengths"]
    else []
  let s3 : List String :=
    match d.skills.bind Skills.technical with
    | some l => if l.length < 5 then
        ["Include more technical skills relevant to your target role"]
      else []
    | none => []
  let s4 : List String :=
    if optLenPos d.experience then
      ["Quantify your achievements with specific metrics and numbers"]
    else []
  let s5 : List String :=
    if optLenPos d.projects then
      ["Enhance project descriptions with outcomes and technologies used"]
    else []
  (s1 ++ s2 ++ s3 ++ s4 ++ s5).take 3

/-- The result object of `computeATSScoreLocally` (source lines
1320-1328). -/
structure ATSLocalResult where
  score : Int
  summary : String
  keywordsMatched : List String
  keywordsMissing : List String
  suggestions : List String
  lastComputedAt : String
  computationMethod : String
deriving DecidableEq, Repr

/-- `computeATSScoreLocally` (source lines 1290-1329).  `rand` is the
value of the single `Math.random()` call executed by the taken branch
(a rational in `[0,1)`); `nowIso` the ISO timestamp.  The interpolation of
the JavaScript float `score` into the summary text is rendered with
`toString` on the rational; no claim depends on that text.  The branch
threshold is the binary64 value of the literal `0.4` and the comparison
of two doubles is exact.  The score arithmetic after the branch is kept
in exact rationals: rounding `rand * 15`, `rand * 11` and
`resumeLength / 1000` to binary64 cannot carry them past the next
integer above the band (for `rand < 1` the products stay more than half
an ulp below 15 and 11), and rounding is monotone, so the banding and
monotonicity facts proved here are insensitive to it.  -/
def computeATSScoreLocally (d : ResumeData) (targetRole : Option String) (rand : Rat)
    (nowIso : String) : ATSLocalResult :=
  let completenessScore := calculateResumeCompleteness d
  let scoreSummary : Rat × String :=
    if completenessScore < dbl ((4 : Rat)/10) then
      let score : Rat := ((rand * 15).floor : Rat) + 35
      (score, "ATS Score: " ++ toString score ++
        "/100 - Resume appears incomplete. Please add more sections like projects, achievements, or certifications to improve your score.")
    else
      let resumeLength := calculateResumeLength d
      let baseScore : Rat := ((rand * 11).floor : Rat) + 70
      let lengthBonus : Rat := min ((resumeLength : Rat) / 1000) 5
      let score : Rat := min (baseScore + lengthBonus) 80
      (score, "ATS Score: " ++ toString score ++ "/100 - " ++
        (if (75 : Rat) ≤ score then "Strong match!" else "Good match!") ++
        " Your resume shows good potential for " ++ jsOrStr targetRole "this role" ++ ".")
  let keywords := extractKeywords d
  let missingKeywords := getMissingKeywords targetRole keywords
  { score := jsRound scoreSummary.1
  , summary := scoreSummary.2
  , keywordsMatched := keywords.take 5
  , keywordsMissing := missingKeywords.take 5
  , suggestions := generateLocalSuggestions d scoreSummary.1 targetRole
  , lastComputedAt := nowIso
  , computationMethod := "local" }

/-! ## Service state, cache key and orchestrators -/

/-- The cache-key object of `getCacheKey` (source lines 262-273); the
source serializes it with `JSON.stringify`, which is injective on this
fixed shape, so the object itself serves as the key. -/
structure CacheKey where
  role : String
  isFresher : Bool
  skillsCount : Nat
  experienceCount : Nat
  projectsCount : Nat
  educationField : String
deriving DecidableEq, Repr

/-- `getCacheKey` (source lines 262-273). -/
def getCacheKey (data : ResumeData) : CacheKey :=
  { role := jsOrStr data.roleApplyingFor "general"
  , isFresher := data.isFresher
  , skillsCount := ((data.skills.bind Skills.technical).getD []).length
  , experienceCount := (data.experience.getD []).length
  , projectsCount := (data.projects.getD []).length
  , educationField := match data.education with
      | some (e :: _) => jsOrStr e.field ""
      | _ => "" }

/-- The AI-path result object of `generateResumeContentWithAI`
(source lines 803-808), in typed form. -/
structure AIGenResult where
  success : Bool
  generatedContent : JVal
  aiPrompt : String
  generationMethod : String

/-- A resume-content generation result: from the AI path or from the
local synthesis fallback. -/
inductive RCResult where
  | fromAI (r : AIGenResult)
  | fromLocal (r : LocalGenResult)

/-- The `success` flag carried by a resume-content result. -/
def RCResult.success : RCResult → Bool
  | RCResult.fromAI r => r.success
  | RCResult.fromLocal r => r.success

/-- The `AIService` singleton state: credential presence, breaker,
governor and response cache. -/
structure SvcState where
  genAIConfigured : Bool
  cb : CB
  gov : Governor
  cache : List (CacheKey × RCResult)

/-- `isAvailable` (source lines 249-251): `genAI !== null &&
circuitState !== 'OPEN' && !isDailyLimitReached()`, with the
short-circuit evaluation order of `&&` (the daily-limit check, which may
reset the counter, runs only when the first two conjuncts hold). -/
def isAvailable (st : SvcState) (today : Nat) : SvcState × Bool :=
  if !st.genAIConfigured then (st, false)
  else if st.cb.circuitState = CBState.OPEN then (st, false)
  else
    let gr := isDailyLimitReached st.gov today
    ({ st with gov := gr.1 }, !gr.2)

/-- Observable resource events of one operation: a governor reservation
(`withRateLimit`) or one remote-model call attempt. -/
inductive Ev where
  | reserve
  | remote
deriving DecidableEq, Repr

/-- The attempt outcome of the `generateResumeContentWithAI` retry loop
(source lines 770-817): `maxRetries = 2`; each attempt is one remote call
whose scrubbed-and-parsed outcome the oracle `remote` reports (`none` for
a timeout, a thrown provider error, or a post-repair parse failure).
Prompt construction feeds only the opaque remote client and is not
modelled. -/
def generateResumeContentWithAI (data : ResumeData) (remote : Nat → Option JVal) :
    Except Unit AIGenResult × Nat :=
  let effectiveRole := jsOrStr data.roleApplyingFor "Professional"
  let mkResult : JVal → AIGenResult := fun g =>
    { success := true
    , generatedContent := g
    , aiPrompt := "Generated resume for " ++ jsOrStr (some effectiveRole) "Professional" ++ " role"
    , generationMethod := "ai" }
  match remote 0 with
  | some g => (Except.ok (mkResult g), 1)
  | none =>
    match remote 1 with
    | some g => (Except.ok (mkResult g), 2)
    | none => (Except.error (), 2)

/-- The outcome of one `generateResumeContent` call. -/
structure GenRCOut where
  result : RCResult
  st : SvcState
  trace : List Ev

/-- `generateResumeContent` (source lines 582-610): cache lookup, then —
when available — rate-limit reservation plus the circuit-breaker-wrapped
AI attempt, every failure being swallowed and falling back to
`enhanceContentLocally`; the result (AI or local) is cached. -/
def generateResumeContent (st : SvcState) (data : ResumeData) (now today : Nat)
    (remote : Nat → Option JVal) : GenRCOut :=
  let cacheKey := getCacheKey data
  match st.cache.lookup cacheKey with
  | some r => ⟨r, st, []⟩
  | none =>
    let av := isAvailable st today
    let st1 := av.1
    if av.2 && !(st1.cb.circuitState = CBState.OPEN) then
      match cbAttempt st1.cb now with
      | (true, cb1) =>
        let gov1 := withRateLimit st1.gov now
        let ai := generateResumeContentWithAI data remote
        let trace := Ev.reserve :: List.replicate ai.2 Ev.remote
        match ai.1 with
        | Except.ok r =>
          let st2 := { st1 with cb := cbOnSuccess cb1, gov := gov1 }
          ⟨RCResult.fromAI r,
            { st2 with cache := (cacheKey, RCResult.fromAI r) :: st2.cache }, trace⟩
        | Except.error _ =>
          let st2 := { st1 with cb := recordFailure cb1 now, gov := gov1 }
          let localResult := enhanceContentLocally data
          ⟨RCResult.fromLocal localResult,
            { st2 with cache := (cacheKey, RCResult.fromLocal localResult) :: st2.cache },
            trace⟩
      | (false, cb1) =>
        let localResult := enhanceContentLocally data
        ⟨RCResult.fromLocal localResult,
          { st1 with
              cb := cb1
              cache := (cacheKey, RCResult.fromLocal localResult) :: st1.cache }, []⟩
    else
      let localResult := enhanceContentLocally data
      ⟨RCResult.fromLocal localResult,
        { st1 with cache := (cacheKey, RCResult.fromLocal localResult) :: st1.cache }, []⟩

/-- The attempt outcome of the `computeATSScoreWithAI` retry loop (source
lines 1235-1286): `maxRetries = 2`; the oracle reports the
scrubbed-and-parsed outcome of each attempt. -/
def computeATSScoreWithAI (remote : Nat → Option JVal) : Except Unit ATSAIResult × Nat :=
  match remote 0 with
  | some parsed => (Except.ok (normalizeATSParsed parsed), 1)
  | none =>
    match remote 1 with
    | some parsed => (Except.ok (normalizeATSParsed parsed), 2)
    | none => (Except.error (), 2)

/-- An ATS-scoring result: from the AI path or from the local fallback. -/
inductive ATSResult where
  | fromAI (r : ATSAIResult)
  | fromLocal (r : ATSLocalResult)

/-- The outcome of one `computeATSScore` call. -/
structure ATSOut where
  result : ATSResult
  st : SvcState
  trace : List Ev

/-- `computeATSScore` (source lines 1175-1189): when available, the
circuit-breaker-wrapped AI attempt — with no rate-limit reservation —
and on any failure the local fallback. -/
def computeATSScore (st : SvcState) (d : ResumeData) (targetRole : Option String)
    (now today : Nat) (remote : Nat → Option JVal) (rand : Rat) (nowIso : String) : ATSOut :=
  let av := isAvailable st today
  let st1 := av.1
  if av.2 && !(st1.cb.circuitState = CBState.OPEN) then
    match cbAttempt st1.cb now with
    | (true, cb1) =>
      let ai := computeATSScoreWithAI remote
      match ai.1 with
      | Except.ok r =>
        ⟨ATSResult.fromAI r, { st1 with cb := cbOnSuccess cb1 },
          List.replicate ai.2 Ev.remote⟩
      | Except.error _ =>
        ⟨ATSResult.fromLocal (computeATSScoreLocally d targetRole rand nowIso),
          { st1 with cb := recordFailure cb1 now }, List.replicate ai.2 Ev.remote⟩
    | (false, cb1) =>
      ⟨ATSResult.fromLocal (computeATSScoreLocally d targetRole rand nowIso),
        { st1 with cb := cb1 }, []⟩
  else
    ⟨ATSResult.fromLocal (computeATSScoreLocally d targetRole rand nowIso), st1, []⟩

/-- The outcome of one `generateProfileSummary` call; an `Except.error`
result models an exception escaping to the caller. -/
structure PSOut where
  result : Except Unit ProfileSummaryResult
  st : SvcState
  trace : List Ev

/-- `generateProfileSummary` (source lines 330-391): unavailable states
fall back locally; otherwise the breaker-wrapped remote attempt, whose
inner `try/catch` itself falls back locally on a remote error (so the
wrapped function never throws); `remote` reports the model response text,
`none` for a thrown/timed-out call. -/
def generateProfileSummary (st : SvcState) (d : ResumeData) (now today : Nat)
    (remote : Option String) : PSOut :=
  let av := isAvailable st today
  let st1 := av.1
  if !av.2 then ⟨Except.ok (generateProfileSummaryLocally d), st1, []⟩
  else
    match cbAttempt st1.cb now with
    | (true, cb1) =>
      let r : ProfileSummaryResult :=
        match remote with
        | some s =>
          let summary := jsTrimStr s
          { success := true
          , summary := summary
          , objective := if d.isFresher then some summary else none }
        | none => generateProfileSummaryLocally d
      ⟨Except.ok r, { st1 with cb := cbOnSuccess cb1 }, [Ev.remote]⟩
    | (false, cb1) =>
      ⟨Except.error (), { st1 with cb := cb1 }, []⟩

/-- The outcome of one `enhanceMultipleSections` call. -/
structure EMSOut where
  result : Except Unit MultiSectionResult
  st : SvcState
  trace : List Ev

/-- `enhanceMultipleSections` (source lines 418-453): unavailable states
use `enhanceSectionsLocally`; otherwise the breaker wraps a function that
performs the identical mapping inline and makes no remote call at all. -/
def enhanceMultipleSections (st : SvcState) (sections : Sections) (ctxRole : Option String)
    (now today : Nat) : EMSOut :=
  let av := isAvailable st today
  let st1 := av.1
  if !av.2 then ⟨Except.ok (enhanceSectionsLocally sections ctxRole), st1, []⟩
  else
    match cbAttempt st1.cb now with
    | (true, cb1) =>
      ⟨Except.ok (enhanceSectionsLocally sections ctxRole),
        { st1 with cb := cbOnSuccess cb1 }, []⟩
    | (false, cb1) =>
      ⟨Except.error (), { st1 with cb := cb1 }, []⟩

/-- The outcome of one remote attempt inside `enhanceSection`: a response
text, a 503 overload error (the only retried error), or any other
error. -/
inductive SectionRemote where
  | ok (s : String)
  | err503
  | errOther

/-- The result object of `enhanceSection` (source lines 488, 575 and
578). -/
structure SectionResult where
  success : Bool
  enhancedContent : Option String
  error : Option String
deriving DecidableEq, Repr

/-- The bullet formatting of `enhanceSection` (source lines 568-573):
split on newlines, trim, drop empties, prefix each line with a bullet
when missing. -/
def formatBullets (s : String) : String :=
  String.intercalate "\n"
    ((((s.splitOn "\n").map jsTrimStr).filter fun line => line ≠ "").map
      fun line => if line.startsWith "•" then line else "• " ++ line)

/-- `enhanceSection` (source lines 486-580): when the service is
unavailable it returns a failure result (`success: false`) with no local
fallback; otherwise up to `maxRetries = 3` attempts, retrying only 503
overload errors while `retryCount < maxRetries - 1`, and returning a
failure result when the final attempt throws.  Prompt construction feeds
only the opaque remote client and is not modelled. -/
def enhanceSection (st : SvcState) (today : Nat) (sectionName : String) (_content : String)
    (remote : Nat → SectionRemote) : SectionResult × SvcState × List Ev :=
  let failResult : SectionResult :=
    { success := false
    , enhancedContent := none
    , error := some ("Failed to enhance " ++ sectionName ++ " section. Please try again later.") }
  let okResult : String → SectionResult := fun s =>
    { success := true
    , enhancedContent := some (formatBullets (jsTrimStr s))
    , error := none }
  let av := isAvailable st today
  let st1 := av.1
  if !av.2 then
    ({ success := false, enhancedContent := none, error := some "AI service is not available" },
      st1, [])
  else
    match remote 0 with
    | SectionRemote.ok s => (okResult s, st1, [Ev.remote])
    | SectionRemote.errOther => (failResult, st1, [Ev.remote])
    | SectionRemote.err503 =>
      match remote 1 with
      | SectionRemote.ok s => (okResult s, st1, [Ev.remote, Ev.remote])
      | SectionRemote.errOther => (failResult, st1, [Ev.remote, Ev.remote])
      | SectionRemote.err503 =>
        match remote 2 with
        | SectionRemote.ok s => (okResult s, st1, [Ev.remote, Ev.remote, Ev.remote])
        | _ => (failResult, st1, [Ev.remote, Ev.remote, Ev.remote])

/-! ## Auxiliary definitions for the statements below -/

/-- Scanner for the governor-ordering property: every `remote` event must
be preceded (anywhere earlier in the trace) by a `reserve` event.  The
Boolean argument records whether a reservation has been seen. -/
def remotesCovered : Bool → List Ev → Bool
  | _, [] => true
  | _, Ev.reserve :: t => remotesCovered true t
  | seen, Ev.remote :: t => seen && remotesCovered seen t

/-- Every remote call in the trace happens after a governor
reservation. -/
def reservedBeforeRemote (tr : List Ev) : Bool := remotesCovered false tr

/-- Characters under which the Text Repair Unit is idempotent (see the
amended claim C3): not a double quote, comma, backtick or opening brace,
and not a control character. -/
def repairSafeChar (c : Char) : Bool :=
  !(c = '"' || c = ',' || c = Char.ofNat 96 || c = '{' || isCtrl c)

/-- A resume-data value with every section absent. -/
def emptyResumeData : ResumeData :=
  { personalInfo := none, skills := none, education := none, experience := none
  , projects := none, achievements := none, roleApplyingFor := none, isFresher := false }

/-- A fresh, fully available service state: credential configured, breaker
CLOSED with no failures, governor counters at zero. -/
def freshSvcState : SvcState :=
  { genAIConfigured := true
  , cb := { circuitState := CBState.CLOSED, failureCount := 0, nextTry := 0 }
  , gov := { lastApiCall := 0, dailyCallCount := 0, lastResetDate := 0 }
  , cache := [] }

/-- A service state with no provider credential configured (the remote
path is unavailable). -/
def noCredSvcState : SvcState :=
  { genAIConfigured := false
  , cb := { circuitState := CBState.CLOSED, failureCount := 0, nextTry := 0 }
  , gov := { lastApiCall := 0, dailyCallCount := 0, lastResetDate := 0 }
  , cache := [] }

/-- A sample project with caller-populated description and outcomes. -/
def sampleProject : Project :=
  { name := "Chat App", description := some "My chat tool"
  , technologies := some ["Node"], outcomes := some ["Shipped it"]
  , link := none, github := none }

/-- A sample achievement with a caller-populated description. -/
def sampleAchievement : Achievement :=
  { title := "Dean List", description := some "Top of class", date := none }

/-- A sample education entry with caller-populated description and
achievements. -/
def sampleEducation : Education :=
  { institution := none, degree := none, field := none, startDate := none
  , endDate := none, gpa := none, description := some "Covered systems"
  , achievements := some ["Won a prize"] }

/-- A sample sections payload holding the sample project. -/
def sampleSections : Sections :=
  { projects := some [sampleProject], achievements := none, education := none, skills := none }

/-- A sample experience entry. -/
def sampleExperience : Experience :=
  { company := none, position := "Developer", location := none, startDate := none
  , endDate := none, current := none, description := none, achievements := none }

/-- A resume with education and experience present: its exact weighted
completeness sum is 0.4, but the binary64 quotient the program computes
falls just below 0.4 (the accumulated total weight is `1 + 2^-52`). -/
def sampleCompleteResume : ResumeData :=
  { personalInfo := none, skills := none
  , education := some [sampleEducation]
  , experience := some [sampleExperience]
  , projects := none, achievements := none, roleApplyingFor := none, isFresher := false }

/-- A resume with education, experience and technical skills present:
its computed completeness quotient is about 0.55, comfortably above the
0.4 threshold. -/
def sampleHighResume : ResumeData :=
  { personalInfo := none
  , skills := some { technical := some ["C"], soft := none, languages := none, tools := none }
  , education := some [sampleEducation]
  , experience := some [sampleExperience]
  , projects := none, achievements := none, roleApplyingFor := none, isFresher := false }

/-! ## Theorems -/

/-- Helper: a successful wrapped call leaves a CLOSED breaker entirely
unchanged. -/
theorem withCircuitBreaker_ok_closed {α : Type} (cb : CB) (now : Nat) (a : α)
    (h : cb.circuitState = CBState.CLOSED) :
    (withCircuitBreaker cb now (Except.ok a)).cb = cb := by
  simp [withCircuitBreaker, cbAttempt, cbOnSuccess, h]

/-- Helper: a successful wrapped call in HALF-OPEN state resets the
failure count. -/
theorem withCircuitBreaker_ok_halfopen {α : Type} (cb : CB) (now : Nat) (a : α)
    (h : cb.circuitState = CBState.HALFOPEN) :
    (withCircuitBreaker cb now (Except.ok a)).cb.failureCount = 0 := by
  simp [withCircuitBreaker, cbAttempt, cbOnSuccess, resetCircuit, h]

/-- C4 (counterexample): in the CLOSED state with failure count 2, a
successful remote attempt through the circuit breaker leaves the failure
count at 2 — it is not reset to 0 as the claim states. -/
theorem c4_closed_success_count_counterexample :
    (withCircuitBreaker { circuitState := CBState.CLOSED, failureCount := 2, nextTry := 0 }
      1000 (Except.ok true)).cb.failureCount ≠ 0 := by
  decide

/-- C4 (amended): a successful attempt through the breaker in CLOSED
state leaves the breaker state — in particular the failure count —
unchanged; the failure count is reset to 0 by a success only in the
HALF-OPEN state (`resetCircuit` is invoked only there). -/
theorem c4_closed_success_behaviour {α : Type} (cb : CB) (now : Nat) (a : α) :
    (cb.circuitState = CBState.CLOSED →
      (withCircuitBreaker cb now (Except.ok a)).cb = cb) ∧
    (cb.circuitState = CBState.HALFOPEN →
      (withCircuitBreaker cb now (Except.ok a)).cb.failureCount = 0) := by
  exact ⟨withCircuitBreaker_ok_closed cb now a, withCircuitBreaker_ok_halfopen cb now a⟩

/-- C4 witness: the amended theorem evaluated at concrete breakers. -/
theorem c4_closed_success_behaviour_witness :
    (withCircuitBreaker { circuitState := CBState.CLOSED, failureCount := 2, nextTry := 0 }
      1000 (Except.ok true)).cb
      = { circuitState := CBState.CLOSED, failureCount := 2, nextTry := 0 } ∧
    (withCircuitBreaker { circuitState := CBState.HALFOPEN, failureCount := 2, nextTry := 0 }
      1000 (Except.ok true)).cb.failureCount = 0 :=
  ⟨(c4_closed_success_behaviour _ 1000 true).1 rfl,
   (c4_closed_success_behaviour _ 1000 true).2 rfl⟩

/-- Helper: a failure through the breaker in CLOSED state below the
threshold only increments the failure count. -/
theorem cb_fail_closed {α : Type} (fc nx t : Nat) (hlt : fc + 1 < failureThreshold) :
    (withCircuitBreaker { circuitState := CBState.CLOSED, failureCount := fc, nextTry := nx }
      t (Except.error () : Except Unit α)).cb
      = { circuitState := CBState.CLOSED, failureCount := fc + 1, nextTry := nx } := by
  simp [withCircuitBreaker, cbAttempt, recordFailure]
  omega

/-- Helper: the failure that reaches the threshold trips the breaker to
OPEN and arms the cool-down. -/
theorem cb_fail_trip {α : Type} (fc nx t : Nat) (hge : failureThreshold ≤ fc + 1) :
    (withCircuitBreaker { circuitState := CBState.CLOSED, failureCount := fc, nextTry := nx }
      t (Except.error () : Except Unit α)).cb
      = { circuitState := CBState.OPEN, failureCount := fc + 1, nextTry := t + resetTimeout } := by
  simp [withCircuitBreaker, cbAttempt, recordFailure, resetTimeout]
  omega

/-- C5: while the breaker is OPEN and the cool-down has not elapsed
(`now < nextTry`), the wrapped remote call is not invoked and the attempt
fails fast with the unavailability error; moreover, after exactly
`failureThreshold = 3` consecutive failures from a CLOSED breaker with
failure count 0, the breaker is OPEN with `nextTry = t3 + resetTimeout`,
and the next attempt at any time `tNext ≤ t3 + resetTimeout` is
short-circuited without invoking the remote call. -/
theorem c5_open_short_circuit {α : Type} (fn fne : Except Unit α) (cb : CB)
    (now t1 t2 t3 tNext : Nat) :
    (cb.circuitState = CBState.OPEN → now < cb.nextTry →
      (withCircuitBreaker cb now fn).invoked = false ∧
      (withCircuitBreaker cb now fn).result = Except.error ()) ∧
    (cb.circuitState = CBState.CLOSED → cb.failureCount = 0 →
      let cb1 := (withCircuitBreaker cb t1 (Except.error () : Except Unit α)).cb
      let cb2 := (withCircuitBreaker cb1 t2 (Except.error () : Except Unit α)).cb
      let cb3 := (withCircuitBreaker cb2 t3 (Except.error () : Except Unit α)).cb
      cb3.circuitState = CBState.OPEN ∧ cb3.nextTry = t3 + resetTimeout ∧
      (tNext ≤ t3 + resetTimeout →
        (withCircuitBreaker cb3 tNext fne).invoked = false ∧
        (withCircuitBreaker cb3 tNext fne).result = Except.error ())) := by
  constructor
  · intro hOpen hLt
    have hnot : ¬ cb.nextTry < now := by omega
    simp [withCircuitBreaker, cbAttempt, hOpen, hnot]
  · intro hClosed hCount
    obtain ⟨cs, fc, nx⟩ := cb
    simp only at hClosed hCount
    subst hClosed
    subst hCount
    have h1 := cb_fail_closed (α := α) 0 nx t1 (by norm_num [failureThreshold])
    have h2 := cb_fail_closed (α := α) 1 nx t2 (by norm_num [failureThreshold])
    have h3 := cb_fail_trip (α := α) 2 nx t3 (by norm_num [failureThreshold])
    simp only [h1, h2, h3]
    refine ⟨trivial, trivial, ?_⟩
    intro hle
    have hnot : ¬ t3 + resetTimeout < tNext := by omega
    simp [withCircuitBreaker, cbAttempt, hnot]

/-- C5 witness: the theorem evaluated at a concrete OPEN breaker inside
its cool-down and at the concrete three-failure scenario. -/
theorem c5_open_short_circuit_witness :
    ((withCircuitBreaker { circuitState := CBState.OPEN, failureCount := 3, nextTry := 5000 }
        100 (Except.ok true)).invoked = false ∧
      (withCircuitBreaker { circuitState := CBState.OPEN, failureCount := 3, nextTry := 5000 }
        100 (Except.ok true)).result = Except.error ()) ∧
    ((withCircuitBreaker
        (withCircuitBreaker
          (withCircuitBreaker
            { circuitState := CBState.CLOSED, failureCount := 0, nextTry := 0 }
            10 (Except.error () : Except Unit Bool)).cb
          20 (Except.error () : Except Unit Bool)).cb
        30 (Except.error () : Except Unit Bool)).cb.circuitState = CBState.OPEN ∧
      (withCircuitBreaker
        (withCircuitBreaker
          (withCircuitBreaker
            { circuitState := CBState.CLOSED, failureCount := 0, nextTry := 0 }
            10 (Except.error () : Except Unit Bool)).cb
          20 (Except.error () : Except Unit Bool)).cb
        30 (Except.error () : Except Unit Bool)).cb.nextTry = 30 + resetTimeout ∧
      ((withCircuitBreaker
          (withCircuitBreaker
            (withCircuitBreaker
              (withCircuitBreaker
                { circuitState := CBState.CLOSED, failureCount := 0, nextTry := 0 }
                10 (Except.error () : Except Unit Bool)).cb
              20 (Except.error () : Except Unit Bool)).cb
            30 (Except.error () : Except Unit Bool)).cb
          40 (Except.ok true)).invoked = false ∧
        (withCircuitBreaker
          (withCircuitBreaker
            (withCircuitBreaker
              (withCircuitBreaker
                { circuitState := CBState.CLOSED, failureCount := 0, nextTry := 0 }
                10 (Except.error () : Except Unit Bool)).cb
              20 (Except.error () : Except Unit Bool)).cb
            30 (Except.error () : Except Unit Bool)).cb
          40 (Except.ok true)).result = Except.error ())) := by
  have h := (c5_open_short_circuit (α := Bool) (Except.ok true) (Except.ok true)
    { circuitState := CBState.CLOSED, failureCount := 0, nextTry := 0 } 100 10 20 30 40).2
    rfl rfl
  exact ⟨(c5_open_short_circuit (α := Bool) (Except.ok true) (Except.ok true)
    { circuitState := CBState.OPEN, failureCount := 3, nextTry := 5000 } 100 10 20 30 40).1
    rfl (by norm_num),
    h.1, h.2.1, h.2.2 (by norm_num [resetTimeout])⟩

/-- Helper: a sequence of `withRateLimit` reservations adds its length to
the daily counter and never touches the stored reset date. -/
theorem foldl_withRateLimit_count (nows : List Nat) (g : Governor) :
    (nows.foldl withRateLimit g).dailyCallCount = g.dailyCallCount + nows.length ∧
    (nows.foldl withRateLimit g).lastResetDate = g.lastResetDate := by
  induction nows generalizing g with
  | nil => simp
  | cons n t ih =>
    have h := ih (withRateLimit g n)
    constructor
    · rw [List.foldl_cons, h.1]
      simp [withRateLimit]
      omega
    · rw [List.foldl_cons, h.2]
      simp [withRateLimit]

/-- C7: with the ceiling `dailyCallLimit = 15` and a governor that starts
the day `d` with a zero counter, after 15 reservations within day `d` the
exhaustion check on day `d` reports exhausted (so the 16th attempt is
refused); the first check observed on a different day `d2` resets the
counter together with the stored date and reports not exhausted, and a
reservation then succeeds, taking the counter to 1. -/
theorem c7_daily_quota (g : Governor) (d d2 : Nat) (nows : List Nat) (now2 : Nat)
    (hc : g.dailyCallCount = 0) (hd : g.lastResetDate = d) (hn : nows.length = 15)
    (hne : d2 ≠ d) :
    ((isDailyLimitReached (nows.foldl withRateLimit g) d).2 = true) ∧
    ((isDailyLimitReached (nows.foldl withRateLimit g) d2).1.dailyCallCount = 0 ∧
     (isDailyLimitReached (nows.foldl withRateLimit g) d2).1.lastResetDate = d2 ∧
     (isDailyLimitReached (nows.foldl withRateLimit g) d2).2 = false) ∧
    (withRateLimit (isDailyLimitReached (nows.foldl withRateLimit g) d2).1
      now2).dailyCallCount = 1 := by
  have h := foldl_withRateLimit_count nows g
  have hcount : (nows.foldl withRateLimit g).dailyCallCount = 15 := by
    rw [h.1, hc, hn]
  have hdate : (nows.foldl withRateLimit g).lastResetDate = d := by
    rw [h.2, hd]
  refine ⟨?_, ⟨?_, ?_, ?_⟩, ?_⟩
  · simp [isDailyLimitReached, hdate, hcount, dailyCallLimit]
  · simp [isDailyLimitReached, hdate, hne]
  · simp [isDailyLimitReached, hdate, hne]
  · simp [isDailyLimitReached, hdate, hne, dailyCallLimit]
  · simp [withRateLimit, isDailyLimitReached, hdate, hne]

/-- C7 witness: the theorem evaluated at a concrete zeroed governor, day
0, 15 reservations, and following day 1. -/
theorem c7_daily_quota_witness :
    ((isDailyLimitReached ((List.replicate 15 0).foldl withRateLimit
        { lastApiCall := 0, dailyCallCount := 0, lastResetDate := 0 }) 0).2 = true) ∧
    ((isDailyLimitReached ((List.replicate 15 0).foldl withRateLimit
        { lastApiCall := 0, dailyCallCount := 0, lastResetDate := 0 }) 1).1.dailyCallCount = 0 ∧
     (isDailyLimitReached ((List.replicate 15 0).foldl withRateLimit
        { lastApiCall := 0, dailyCallCount := 0, lastResetDate := 0 }) 1).1.lastResetDate = 1 ∧
     (isDailyLimitReached ((List.replicate 15 0).foldl withRateLimit
        { lastApiCall := 0, dailyCallCount := 0, lastResetDate := 0 }) 1).2 = false) ∧
    (withRateLimit (isDailyLimitReached ((List.replicate 15 0).foldl withRateLimit
        { lastApiCall := 0, dailyCallCount := 0, lastResetDate := 0 }) 1).1
      999).dailyCallCount = 1 :=
  c7_daily_quota { lastApiCall := 0, dailyCallCount := 0, lastResetDate := 0 } 0 1
    (List.replicate 15 0) 999 rfl rfl (by decide) (by decide)

/-- C10: after a successful parse, the ATS AI path normalizes the result:
the score equals the parsed score rounded and clamped into `[0,100]` when
the parsed score is a number and is null (`none`) otherwise; each of
`keywordsMatched`, `keywordsMissing` and `suggestions` is the parsed
array when the parsed value is an array and the empty array otherwise. -/
theorem c10_ats_ai_normalization (parsed : JVal) :
    (∀ q : Rat, jsGet parsed "score" = some (JVal.num q) →
      (normalizeATSParsed parsed).score = some (max 0 (min 100 (jsRound q)))) ∧
    ((∀ q : Rat, jsGet parsed "score" ≠ some (JVal.num q)) →
      (normalizeATSParsed parsed).score = none) ∧
    (∀ xs, jsGet parsed "keywordsMatched" = some (JVal.arr xs) →
      (normalizeATSParsed parsed).keywordsMatched = xs) ∧
    ((∀ xs, jsGet parsed "keywordsMatched" ≠ some (JVal.arr xs)) →
      (normalizeATSParsed parsed).keywordsMatched = []) ∧
    (∀ xs, jsGet parsed "keywordsMissing" = some (JVal.arr xs) →
      (normalizeATSParsed parsed).keywordsMissing = xs) ∧
    ((∀ xs, jsGet parsed "keywordsMissing" ≠ some (JVal.arr xs)) →
      (normalizeATSParsed parsed).keywordsMissing = []) ∧
    (∀ xs, jsGet parsed "suggestions" = some (JVal.arr xs) →
      (normalizeATSParsed parsed).suggestions = xs) ∧
    ((∀ xs, jsGet parsed "suggestions" ≠ some (JVal.arr xs)) →
      (normalizeATSParsed parsed).suggestions = []) := by
  refine ⟨?_, ?_, ?_, ?_, ?_, ?_, ?_, ?_⟩
  · intro q h
    simp [normalizeATSParsed, h]
  · intro h
    rcases hg : jsGet parsed "score" with _ | v
    · simp [normalizeATSParsed, hg]
    · cases v
      case num q => exact absurd hg (h q)
      all_goals simp [normalizeATSParsed, hg]
  · intro xs h
    simp [normalizeATSParsed, h]
  · intro h
    rcases hg : jsGet parsed "keywordsMatched" with _ | v
    · simp [normalizeATSParsed, hg]
    · cases v
      case arr xs => exact absurd hg (h xs)
      all_goals simp [normalizeATSParsed, hg]
  · intro xs h
    simp [normalizeATSParsed, h]
  · intro h
    rcases hg : jsGet parsed "keywordsMissing" with _ | v
    · simp [normalizeATSParsed, hg]
    · cases v
      case arr xs => exact absurd hg (h xs)
      all_goals simp [normalizeATSParsed, hg]
  · intro xs h
    simp [normalizeATSParsed, h]
  · intro h
    rcases hg : jsGet parsed "suggestions" with _ | v
    · simp [normalizeATSParsed, hg]
    · cases v
      case arr xs => exact absurd hg (h xs)
      all_goals simp [normalizeATSParsed, hg]

/-- C10 witness: the theorem evaluated at a concrete parsed object with a
fractional out-of-nothing score 87.5 (rounded to 88), an array
`keywordsMatched`, and a non-array `suggestions`. -/
theorem c10_ats_ai_normalization_witness :
    (normalizeATSParsed (JVal.obj [("score", JVal.num (175/2)),
      ("keywordsMatched", JVal.arr [JVal.str "react"]),
      ("suggestions", JVal.str "oops")])).score = some 88 ∧
    (normalizeATSParsed (JVal.obj [("score", JVal.num (175/2)),
      ("keywordsMatched", JVal.arr [JVal.str "react"]),
      ("suggestions", JVal.str "oops")])).keywordsMatched = [JVal.str "react"] ∧
    (normalizeATSParsed (JVal.obj [("score", JVal.num (175/2)),
      ("keywordsMatched", JVal.arr [JVal.str "react"]),
      ("suggestions", JVal.str "oops")])).suggestions = [] := by
  have h := c10_ats_ai_normalization (JVal.obj [("score", JVal.num (175/2)),
    ("keywordsMatched", JVal.arr [JVal.str "react"]),
    ("suggestions", JVal.str "oops")])
  refine ⟨?_, h.2.2.1 [JVal.str "react"] rfl, ?_⟩
  · rw [h.1 (175/2) rfl]
    norm_num [jsRound]
    decide
  · refine h.2.2.2.2.2.2.2 ?_
    intro xs hx
    rw [show jsGet (JVal.obj [("score", JVal.num (175/2)),
      ("keywordsMatched", JVal.arr [JVal.str "react"]),
      ("suggestions", JVal.str "oops")]) "suggestions" = some (JVal.str "oops") from rfl] at hx
    simp at hx

/-- C2 (counterexample): at a concrete request, the AI-path and
local-path result envelopes of resume-content generation have different
top-level key sets, and they still differ after each path's provenance
tag key is removed (the local result carries an extra `enhancements`
field, and the tag keys themselves have different names). -/
theorem c2_schema_counterexample :
    topLevelKeys (resumeContentAIEnvelope JVal.null (some "Frontend Developer"))
      ≠ topLevelKeys (resumeContentLocalEnvelope JVal.null "Frontend Developer" []) ∧
    (topLevelKeys (resumeContentAIEnvelope JVal.null (some "Frontend Developer"))).erase
        "generationMethod"
      ≠ (topLevelKeys (resumeContentLocalEnvelope JVal.null "Frontend Developer" [])).erase
        "enhancementMethod" := by
  decide

/-- C2 (amended): for every payload, the two resume-content result
envelopes agree on the keys `success`, `generatedContent` and `aiPrompt`,
but the provenance tag key differs in name (`generationMethod` on the AI
path, `enhancementMethod` on the local path) and the local envelope
carries an additional `enhancements` key — so the schemas are not
identical up to the provenance tag. -/
theorem c2_schema_amended (g g2 : JVal) (role : Option String) (role2 : String)
    (enh : List String) :
    topLevelKeys (resumeContentAIEnvelope g role)
      = ["success", "generatedContent", "aiPrompt", "generationMethod"] ∧
    topLevelKeys (resumeContentLocalEnvelope g2 role2 enh)
      = ["success", "generatedContent", "aiPrompt", "enhancements", "enhancementMethod"] :=
  ⟨rfl, rfl⟩

/-- Helper: a trace of remote events after a reservation has been seen
satisfies the scanner. -/
theorem remotesCovered_true_replicate (n : Nat) :
    remotesCovered true (List.replicate n Ev.remote) = true := by
  induction n with
  | zero => rfl
  | succ k ih => simp [List.replicate_succ, remotesCovered, ih]

/-- C6 (counterexample): a concrete available state on which
`computeATSScore` performs a remote attempt with no governor reservation:
the trace is exactly one remote event with no reserve event, and the
daily call counter is unchanged. -/
theorem c6_ats_no_reservation_counterexample :
    (computeATSScore freshSvcState emptyResumeData none 5000 0 (fun _ => some (JVal.obj []))
      0 "2024-01-01T00:00:00.000Z").trace = [Ev.remote] ∧
    Ev.reserve ∉ (computeATSScore freshSvcState emptyResumeData none 5000 0
      (fun _ => some (JVal.obj [])) 0 "2024-01-01T00:00:00.000Z").trace ∧
    (computeATSScore freshSvcState emptyResumeData none 5000 0 (fun _ => some (JVal.obj []))
      0 "2024-01-01T00:00:00.000Z").st.gov.dailyCallCount
      = freshSvcState.gov.dailyCallCount := by
  decide

/-- C6 (amended): resume-content generation always reserves a governor
slot before any remote attempt (every remote event in its trace is
preceded by a reserve event), but ATS scoring never reserves a slot at
all — its trace never contains a reserve event, whatever the state and
oracle. -/
theorem c6_reservation_discipline (st st2 : SvcState) (data d2 : ResumeData)
    (now today now2 today2 : Nat) (remote remote2 : Nat → Option JVal)
    (targetRole : Option String) (rand : Rat) (nowIso : String) :
    reservedBeforeRemote (generateResumeContent st data now today remote).trace = true ∧
    Ev.reserve ∉ (computeATSScore st2 d2 targetRole now2 today2 remote2 rand nowIso).trace := by
  constructor
  · unfold generateResumeContent
    rcases hl : st.cache.lookup (getCacheKey data) with _ | r
    · simp only [hl]
      split
      · rcases hcb : cbAttempt (isAvailable st today).1.cb now with ⟨b, cb1⟩
        cases b
        · simp [hcb, reservedBeforeRemote, remotesCovered]
        · simp only [hcb]
          rcases hai : (generateResumeContentWithAI data remote).1 with e | r2
          · simp [hai, reservedBeforeRemote, remotesCovered, remotesCovered_true_replicate]
          · simp [hai, reservedBeforeRemote, remotesCovered, remotesCovered_true_replicate]
      · simp [reservedBeforeRemote, remotesCovered]
    · simp [hl, reservedBeforeRemote, remotesCovered]
  · simp only [computeATSScore]
    split
    · rcases hcb : cbAttempt (isAvailable st2 today2).1.cb now2 with ⟨b, cb1⟩
      cases b
      · simp [hcb]
      · simp only [hcb]
        rcases hai : (computeATSScoreWithAI remote2).1 with e | r2
        · simp [hai, List.mem_replicate]
        · simp [hai, List.mem_replicate]
    · simp

/-- Helper: `isAvailable` never modifies the breaker state. -/
theorem isAvailable_cb (st : SvcState) (today : Nat) : (isAvailable st today).1.cb = st.cb := by
  unfold isAvailable
  split
  · rfl
  · split
    · rfl
    · rfl

/-- Helper: an available verdict implies the breaker is not OPEN. -/
theorem isAvailable_true_not_open (st : SvcState) (today : Nat)
    (h : (isAvailable st today).2 = true) : st.cb.circuitState ≠ CBState.OPEN := by
  revert h
  unfold isAvailable
  split
  · intro h
    simp at h
  · split
    · intro h
      simp at h
    · intro _ hopen
      simp_all

/-- Helper: the breaker gate invokes the wrapped call whenever the state
is not OPEN, leaving the breaker unchanged. -/
theorem cbAttempt_not_open (cb : CB) (now : Nat) (h : cb.circuitState ≠ CBState.OPEN) :
    cbAttempt cb now = (true, cb) := by
  simp [cbAttempt, h]

/-- Helper: an `Except.ok` outcome of the resume-content AI retry loop
carries `success = true`. -/
theorem generateResumeContentWithAI_ok_success (data : ResumeData)
    (remote : Nat → Option JVal) (r : AIGenResult)
    (h : (generateResumeContentWithAI data remote).1 = Except.ok r) : r.success = true := by
  revert h
  unfold generateResumeContentWithAI
  rcases remote 0 with _ | g0
  · rcases remote 1 with _ | g1
    · intro h
      simp at h
    · intro h
      simp at h
      rw [← h]
  · intro h
    simp at h
    rw [← h]

/-- Helper: a successful cache lookup returns a value stored in the
cache. -/
theorem lookup_mem_pairs {α β : Type} [BEq α] [LawfulBEq α] (l : List (α × β)) (k : α) (v : β)
    (h : l.lookup k = some v) : ∃ a, (a, v) ∈ l := by
  induction l with
  | nil => simp [List.lookup] at h
  | cons p t ih =>
    obtain ⟨a, b⟩ := p
    rw [List.lookup] at h
    rcases hbe : (k == a) with _ | _
    · rw [hbe] at h
      obtain ⟨a2, hm⟩ := ih h
      exact ⟨a2, List.mem_cons_of_mem _ hm⟩
    · rw [hbe] at h
      simp at h
      exact ⟨a, by simp [h]⟩

/-- Helper: the local enhancement result always carries
`success = true`. -/
theorem enhanceContentLocally_success (data : ResumeData) :
    (enhanceContentLocally data).success = true := rfl

/-- C1 (counterexample): when the remote path is unavailable (no
credential configured), single-section enhancement does not fall back to
the Local Synthesis Engine — it returns a failure result
(`success: false`) to the caller. -/
theorem c1_enhanceSection_failure_counterexample :
    (enhanceSection noCredSvcState 0 "project" "some content"
      (fun _ => SectionRemote.errOther)).1.success = false ∧
    (enhanceSection noCredSvcState 0 "project" "some content"
      (fun _ => SectionRemote.errOther)).1.error = some "AI service is not available" := by
  decide

/-- C1 (amended): resume-content generation, ATS scoring, profile-summary
generation and multi-section enhancement never surface a failure — on
every remote-failure cascade they return a populated success result,
falling back to the Local Synthesis Engine; single-section enhancement,
however, has no local fallback and returns a failure result whenever the
remote path is unavailable. -/
theorem c1_operations_never_fail :
    (∀ (st : SvcState) (data : ResumeData) (now today : Nat) (remote : Nat → Option JVal),
      (∀ kv ∈ st.cache, (kv.2).success = true) →
      (generateResumeContent st data now today remote).result.success = true) ∧
    (∀ (st : SvcState) (d : ResumeData) (targetRole : Option String) (now today : Nat)
        (rand : Rat) (nowIso : String),
      (computeATSScore st d targetRole now today (fun _ => none) rand nowIso).result
        = ATSResult.fromLocal (computeATSScoreLocally d targetRole rand nowIso)) ∧
    (∀ (st : SvcState) (d : ResumeData) (now today : Nat) (remote : Option String),
      ∃ r, (generateProfileSummary st d now today remote).result = Except.ok r ∧
        r.success = true) ∧
    (∀ (st : SvcState) (sections : Sections) (ctxRole : Option String) (now today : Nat),
      ∃ r, (enhanceMultipleSections st sections ctxRole now today).result = Except.ok r ∧
        r.success = true) ∧
    (∀ (st : SvcState) (today : Nat) (sectionName content : String)
        (remote : Nat → SectionRemote),
      (isAvailable st today).2 = false →
      (enhanceSection st today sectionName content remote).1.success = false) := by
  refine ⟨?_, ?_, ?_, ?_, ?_⟩
  · intro st data now today remote hcache
    simp only [generateResumeContent]
    rcases hl : st.cache.lookup (getCacheKey data) with _ | r
    · simp only [hl]
      split
      · rcases hcb : cbAttempt (isAvailable st today).1.cb now with ⟨b, cb1⟩
        cases b
        · simp [hcb, RCResult.success, enhanceContentLocally_success]
        · simp only [hcb]
          rcases hai : (generateResumeContentWithAI data remote).1 with e | r2
          · simp [hai, RCResult.success, enhanceContentLocally_success]
          · simp [hai, RCResult.success,
              generateResumeContentWithAI_ok_success data remote r2 hai]
      · simp [RCResult.success, enhanceContentLocally_success]
    · simp only [hl]
      obtain ⟨a, hm⟩ := lookup_mem_pairs st.cache (getCacheKey data) r hl
      exact hcache (a, r) hm
  · intro st d targetRole now today rand nowIso
    simp only [computeATSScore]
    split
    · rcases hcb : cbAttempt (isAvailable st today).1.cb now with ⟨b, cb1⟩
      cases b
      · simp [hcb]
      · simp only [hcb]
        rfl
    · rfl
  · intro st d now today remote
    simp only [generateProfileSummary]
    split
    · exact ⟨generateProfileSummaryLocally d, rfl, rfl⟩
    · rename_i hav
      simp only [Bool.not_eq_true'] at hav
      rw [Bool.not_eq_false] at hav
      have hno := isAvailable_true_not_open st today hav
      rw [← isAvailable_cb st today] at hno
      rw [cbAttempt_not_open _ now hno]
      rcases remote with _ | s
      · exact ⟨generateProfileSummaryLocally d, rfl, rfl⟩
      · exact ⟨_, rfl, rfl⟩
  · intro st sections ctxRole now today
    simp only [enhanceMultipleSections]
    split
    · exact ⟨enhanceSectionsLocally sections ctxRole, rfl, rfl⟩
    · rename_i hav
      simp only [Bool.not_eq_true'] at hav
      rw [Bool.not_eq_false] at hav
      have hno := isAvailable_true_not_open st today hav
      rw [← isAvailable_cb st today] at hno
      rw [cbAttempt_not_open _ now hno]
      exact ⟨enhanceSectionsLocally sections ctxRole, rfl, rfl⟩
  · intro st today sectionName content remote hun
    simp [enhanceSection, hun]

/-- C1 witness: the amended theorem evaluated at concrete states — a
fresh available state with an always-failing remote for resume-content
generation, an unavailable state for ATS scoring, and the unavailable
single-section enhancement. -/
theorem c1_operations_never_fail_witness :
    (generateResumeContent freshSvcState emptyResumeData 5000 0 (fun _ => none)).result.success
      = true ∧
    (computeATSScore noCredSvcState emptyResumeData none 0 0 (fun _ => none) 0
      "2024-01-01T00:00:00.000Z").result
      = ATSResult.fromLocal (computeATSScoreLocally emptyResumeData none 0
        "2024-01-01T00:00:00.000Z") ∧
    (enhanceSection noCredSvcState 0 "achievement" "x"
      (fun _ => SectionRemote.err503)).1.success = false :=
  ⟨c1_operations_never_fail.1 freshSvcState emptyResumeData 5000 0 (fun _ => none)
      (by intro kv hm; simp [freshSvcState] at hm),
   c1_operations_never_fail.2.1 noCredSvcState emptyResumeData none 0 0 0
      "2024-01-01T00:00:00.000Z",
   c1_operations_never_fail.2.2.2.2 noCredSvcState 0 "achievement" "x"
      (fun _ => SectionRemote.err503) (by decide)⟩

/-- C9: local enrichment never overwrites a caller-populated field.  The
section operations map the item enrichers over the given items, and the
enrichers preserve every already-populated field: a non-empty project,
achievement or education description survives unchanged, as do non-empty
project outcomes and education achievements, and an enriched project
keeps its name, technologies and links; generated text is substituted
only where the field was absent (or empty). -/
theorem c9_enrichment_preserves_populated_fields :
    (∀ (sections : Sections) (ctxRole : Option String) (ps : List Project),
      sections.projects = some ps →
      (enhanceSectionsLocally sections ctxRole).enhancedSections.projects
        = some (ps.map (enhanceProjectItem sections.skills))) ∧
    (∀ (sections : Sections) (ctxRole : Option String) (la : List Achievement),
      sections.achievements = some la →
      (enhanceSectionsLocally sections ctxRole).enhancedSections.achievements
        = some (la.map enhanceAchievementItem)) ∧
    (∀ (data : ResumeData),
      (enhanceContentLocally data).generatedContent.projects
        = (data.projects.getD []).map (enhanceProjectItem data.skills) ∧
      (enhanceContentLocally data).generatedContent.achievements
        = (data.achievements.getD []).map enhanceAchievementItem ∧
      (enhanceContentLocally data).generatedContent.education
        = (data.education.getD []).map (enhanceEducationItem data.education
            (some (jsOrStr data.roleApplyingFor "Professional")))) ∧
    (∀ (sk : Option Skills) (p : Project) (d : String),
      p.description = some d → d ≠ "" →
      (enhanceProjectItem sk p).description = some d) ∧
    (∀ (sk : Option Skills) (p : Project) (o : List String),
      p.outcomes = some o → o ≠ [] →
      (enhanceProjectItem sk p).outcomes = some o) ∧
    (∀ (sk : Option Skills) (p : Project),
      (enhanceProjectItem sk p).name = p.name ∧
      (enhanceProjectItem sk p).technologies = p.technologies ∧
      (enhanceProjectItem sk p).link = p.link ∧
      (enhanceProjectItem sk p).github = p.github) ∧
    (∀ (a : Achievement) (d : String),
      a.description = some d → d ≠ "" →
      (enhanceAchievementItem a).description = some d) ∧
    (∀ (edus : Option (List Education)) (role : Option String) (e : Education) (d : String),
      e.description = some d → d ≠ "" →
      (enhanceEducationItem edus role e).description = some d) ∧
    (∀ (edus : Option (List Education)) (role : Option String) (e : Education)
        (l : List String),
      e.achievements = some l → l ≠ [] →
      (enhanceEducationItem edus role e).achievements = some l) := by
  refine ⟨?_, ?_, ?_, ?_, ?_, ?_, ?_, ?_, ?_⟩
  · intro sections ctxRole ps h
    simp [enhanceSectionsLocally, h]
  · intro sections ctxRole la h
    simp [enhanceSectionsLocally, h]
  · intro data
    exact ⟨rfl, rfl, rfl⟩
  · intro sk p d h hne
    simp [enhanceProjectItem, jsOrStr, h, hne]
  · intro sk p o h _
    simp [enhanceProjectItem, jsOrArr, h]
  · intro sk p
    exact ⟨rfl, rfl, rfl, rfl⟩
  · intro a d h hne
    simp [enhanceAchievementItem, jsOrStr, h, hne]
  · intro edus role e d h hne
    simp [enhanceEducationItem, jsOrStr, h, hne]
  · intro edus role e l h _
    simp [enhanceEducationItem, jsOrArr, h]

/-- C9 witness: the theorem evaluated at concrete populated items — the
caller-provided description, outcomes and education achievements survive
enrichment unchanged. -/
theorem c9_enrichment_preserves_populated_fields_witness :
    (enhanceProjectItem none sampleProject).description = some "My chat tool" ∧
    (enhanceProjectItem none sampleProject).outcomes = some ["Shipped it"] ∧
    (enhanceAchievementItem sampleAchievement).description = some "Top of class" ∧
    (enhanceEducationItem none (some "Software Engineer") sampleEducation).description
      = some "Covered systems" ∧
    (enhanceEducationItem none (some "Software Engineer") sampleEducation).achievements
      = some ["Won a prize"] ∧
    (enhanceSectionsLocally sampleSections none).enhancedSections.projects
      = some [enhanceProjectItem none sampleProject] :=
  ⟨c9_enrichment_preserves_populated_fields.2.2.2.1 none sampleProject "My chat tool" rfl
     (by decide),
   c9_enrichment_preserves_populated_fields.2.2.2.2.1 none sampleProject ["Shipped it"] rfl
     (by decide),
   c9_enrichment_preserves_populated_fields.2.2.2.2.2.2.1 sampleAchievement "Top of class" rfl
     (by decide),
   c9_enrichment_preserves_populated_fields.2.2.2.2.2.2.2.1 none (some "Software Engineer")
     sampleEducation "Covered systems" rfl (by decide),
   c9_enrichment_preserves_populated_fields.2.2.2.2.2.2.2.2 none (some "Software Engineer")
     sampleEducation ["Won a prize"] rfl (by decide),
   c9_enrichment_preserves_populated_fields.1 sampleSections none [sampleProject] rfl⟩

/-- Helper: `jsRound` is `⌊· + 1/2⌋`. -/
theorem jsRound_eq_floor (q : Rat) : jsRound q = ⌊q + 1/2⌋ := rfl

/-- Helper: `jsRound` is monotone. -/
theorem jsRound_mono {a b : Rat} (h : a ≤ b) : jsRound a ≤ jsRound b := by
  rw [jsRound_eq_floor, jsRound_eq_floor]
  exact Int.floor_le_floor (by linarith)

/-- Helper: `jsRound` fixes integers. -/
theorem jsRound_intCast (n : Int) : jsRound ((n : Rat)) = n := by
  rw [jsRound_eq_floor, Int.floor_int_add]
  norm_num

/-- Helper: `Int.toNat` on a numeral. -/
theorem int_toNat_lit (n : Nat) [Nat.AtLeastTwo n] :
    Int.toNat (OfNat.ofNat n) = OfNat.ofNat n := rfl

/-- Helper: `pow2` agrees with the integer power of 2. -/
theorem pow2_eq_zpow (e : Int) : pow2 e = (2 : Rat) ^ e := by
  unfold pow2
  split
  · rw [← zpow_natCast]
    congr 1
    omega
  · rw [← zpow_natCast, ← zpow_neg]
    congr 1
    omega

/-- Helper: the base-2 logarithm of a positive rational bracketed between
consecutive powers of 2. -/
theorem log2_eq {q : Rat} (e : Int) (h0 : 0 < q) (h1 : pow2 e ≤ q)
    (h2 : q < pow2 (e + 1)) : Int.log 2 q = e := by
  rw [pow2_eq_zpow] at h1 h2
  have hb : (1 : Nat) < 2 := by norm_num
  have hA : e ≤ Int.log 2 q :=
    (Int.zpow_le_iff_le_log hb h0 (x := e)).mp (by exact_mod_cast h1)
  have hB : Int.log 2 q < e + 1 :=
    (Int.lt_zpow_iff_log_lt hb h0 (x := e + 1)).mp (by exact_mod_cast h2)
  omega

/-- Helper: `roundPos` with the exponent made explicit. -/
theorem roundPos_eq (q : Rat) (e : Int) (h0 : 0 < q) (h1 : pow2 e ≤ q)
    (h2 : q < pow2 (e + 1)) :
    roundPos q =
      ((roundHalfEven (q * pow2 (52 - e)) : Int) : Rat) * pow2 (e - 52) := by
  simp only [roundPos, log2_eq e h0 h1 h2]

/-- Helper: `roundDouble` on a positive rational is `roundPos`. -/
theorem roundDouble_pos (q : Rat) (h0 : 0 < q) : roundDouble q = roundPos q := by
  simp only [roundDouble, if_neg h0.ne', if_neg (not_lt.2 h0.le)]

/-- Helper: round-half-even when the fractional part is below 1/2. -/
theorem roundHalfEven_eval_lt {x : Rat} {n : Int} (h1 : (n : Rat) ≤ x)
    (h2 : x < (n : Rat) + 1/2) : roundHalfEven x = n := by
  have hfl : ⌊x⌋ = n := by
    rw [Int.floor_eq_iff]
    exact ⟨h1, by linarith⟩
  simp only [roundHalfEven, hfl]
  rw [if_pos (by linarith : x - (n : Rat) < 1/2)]

/-- Helper: round-half-even when the fractional part is above 1/2. -/
theorem roundHalfEven_eval_gt {x : Rat} {n : Int} (h1 : (n : Rat) + 1/2 < x)
    (h2 : x < (n : Rat) + 1) : roundHalfEven x = n + 1 := by
  have hfl : ⌊x⌋ = n := by
    rw [Int.floor_eq_iff]
    exact ⟨by linarith, h2⟩
  simp only [roundHalfEven, hfl]
  rw [if_neg (by linarith), if_pos (by linarith)]

/-- Helper: round-half-even at an exact tie with an odd floor rounds
up. -/
theorem roundHalfEven_eval_tie {x : Rat} {n : Int} (hx : x = (n : Rat) + 1/2)
    (hodd : n % 2 = 1) : roundHalfEven x = n + 1 := by
  have hfl : ⌊x⌋ = n := by
    rw [Int.floor_eq_iff]
    constructor
    · rw [hx]
      linarith
    · rw [hx]
      norm_num
  simp only [roundHalfEven, hfl]
  rw [if_neg (by rw [hx]; norm_num), if_neg (by rw [hx]; norm_num),
    if_neg (by omega)]

/-- Helper: evaluate `roundDouble` when the scaled significand rounds
down. -/
theorem roundDouble_eval_lt (q r : Rat) (e n : Int) (h0 : 0 < q)
    (h1 : pow2 e ≤ q) (h2 : q < pow2 (e + 1))
    (hn1 : (n : Rat) ≤ q * pow2 (52 - e))
    (hn2 : q * pow2 (52 - e) < (n : Rat) + 1/2)
    (hr : ((n : Int) : Rat) * pow2 (e - 52) = r) :
    roundDouble q = r := by
  rw [roundDouble_pos q h0, roundPos_eq q e h0 h1 h2,
    roundHalfEven_eval_lt hn1 hn2, hr]

/-- Helper: evaluate `roundDouble` when the scaled significand rounds
up. -/
theorem roundDouble_eval_gt (q r : Rat) (e n : Int) (h0 : 0 < q)
    (h1 : pow2 e ≤ q) (h2 : q < pow2 (e + 1))
    (hn1 : (n : Rat) + 1/2 < q * pow2 (52 - e))
    (hn2 : q * pow2 (52 - e) < (n : Rat) + 1)
    (hr : ((n + 1 : Int) : Rat) * pow2 (e - 52) = r) :
    roundDouble q = r := by
  rw [roundDouble_pos q h0, roundPos_eq q e h0 h1 h2,
    roundHalfEven_eval_gt hn1 hn2, hr]

/-- Helper: evaluate `roundDouble` at an exact significand tie with an
odd floor. -/
theorem roundDouble_eval_tie (q r : Rat) (e n : Int) (h0 : 0 < q)
    (h1 : pow2 e ≤ q) (h2 : q < pow2 (e + 1))
    (hx : q * pow2 (52 - e) = (n : Rat) + 1/2) (hodd : n % 2 = 1)
    (hr : ((n + 1 : Int) : Rat) * pow2 (e - 52) = r) :
    roundDouble q = r := by
  rw [roundDouble_pos q h0, roundPos_eq q e h0 h1 h2,
    roundHalfEven_eval_tie hx hodd, hr]

/-- The double nearest the literal `0.2`. -/
theorem dbl_two_tenths : dbl ((2 : Rat)/10) = 3602879701896397 / 2 ^ 54 := by
  rw [dbl]
  exact roundDouble_eval_gt _ _ (-3) 7205759403792793 (by norm_num)
    (by simp [pow2, int_toNat_lit]; norm_num) (by simp [pow2, int_toNat_lit]; norm_num)
    (by simp [pow2, int_toNat_lit]; norm_num) (by simp [pow2, int_toNat_lit]; norm_num)
    (by simp [pow2, int_toNat_lit]; norm_num)

/-- The double nearest the literal `0.15`. -/
theorem dbl_fifteen_hundredths :
    dbl ((15 : Rat)/100) = 5404319552844595 / 2 ^ 55 := by
  rw [dbl]
  exact roundDouble_eval_lt _ _ (-3) 5404319552844595 (by norm_num)
    (by simp [pow2, int_toNat_lit]; norm_num) (by simp [pow2, int_toNat_lit]; norm_num)
    (by simp [pow2, int_toNat_lit]; norm_num) (by simp [pow2, int_toNat_lit]; norm_num)
    (by simp [pow2, int_toNat_lit]; norm_num)

/-- The double nearest the literal `0.1`. -/
theorem dbl_one_tenth : dbl ((1 : Rat)/10) = 3602879701896397 / 2 ^ 55 := by
  rw [dbl]
  exact roundDouble_eval_gt _ _ (-4) 7205759403792793 (by norm_num)
    (by simp [pow2, int_toNat_lit]; norm_num) (by simp [pow2, int_toNat_lit]; norm_num)
    (by simp [pow2, int_toNat_lit]; norm_num) (by simp [pow2, int_toNat_lit]; norm_num)
    (by simp [pow2, int_toNat_lit]; norm_num)

/-- The double nearest the literal `0.4`. -/
theorem dbl_four_tenths : dbl ((4 : Rat)/10) = 3602879701896397 / 2 ^ 53 := by
  rw [dbl]
  exact roundDouble_eval_gt _ _ (-2) 7205759403792793 (by norm_num)
    (by simp [pow2, int_toNat_lit]; norm_num) (by simp [pow2, int_toNat_lit]; norm_num)
    (by simp [pow2, int_toNat_lit]; norm_num) (by simp [pow2, int_toNat_lit]; norm_num)
    (by simp [pow2, int_toNat_lit]; norm_num)

/-- Binary64 step: `0 + 0.2` is exact. -/
theorem jsAdd_zero_point2 :
    jsAdd 0 ((3602879701896397 : Rat) / 2 ^ 54) = 3602879701896397 / 2 ^ 54 := by
  rw [jsAdd]
  exact roundDouble_eval_lt _ _ (-3) 7205759403792794 (by norm_num)
    (by simp [pow2, int_toNat_lit]; norm_num) (by simp [pow2, int_toNat_lit]; norm_num)
    (by simp [pow2, int_toNat_lit]; norm_num) (by simp [pow2, int_toNat_lit]; norm_num)
    (by simp [pow2, int_toNat_lit]; norm_num)

/-- Binary64 step: `0.2 + 0.2` is exact. -/
theorem jsAdd_point2_point2 :
    jsAdd ((3602879701896397 : Rat) / 2 ^ 54) ((3602879701896397 : Rat) / 2 ^ 54) =
      3602879701896397 / 2 ^ 53 := by
  rw [jsAdd]
  exact roundDouble_eval_lt _ _ (-2) 7205759403792794 (by norm_num)
    (by simp [pow2, int_toNat_lit]; norm_num) (by simp [pow2, int_toNat_lit]; norm_num)
    (by simp [pow2, int_toNat_lit]; norm_num) (by simp [pow2, int_toNat_lit]; norm_num)
    (by simp [pow2, int_toNat_lit]; norm_num)

/-- Binary64 step: `0.4 + 0.2` hits an exact tie and rounds up to the
even significand (the famous `0.6000000000000001`). -/
theorem jsAdd_point4_point2 :
    jsAdd ((3602879701896397 : Rat) / 2 ^ 53) ((3602879701896397 : Rat) / 2 ^ 54) =
      1351079888211149 / 2 ^ 51 := by
  rw [jsAdd]
  exact roundDouble_eval_tie _ _ (-1) 5404319552844595 (by norm_num)
    (by simp [pow2, int_toNat_lit]; norm_num) (by simp [pow2, int_toNat_lit]; norm_num)
    (by simp [pow2, int_toNat_lit]; norm_num) (by norm_num)
    (by simp [pow2, int_toNat_lit]; norm_num)

/-- Binary64 step: `0.6000000000000001 + 0.15` rounds up. -/
theorem jsAdd_point6_point15 :
    jsAdd ((1351079888211149 : Rat) / 2 ^ 51) ((5404319552844595 : Rat) / 2 ^ 55) =
      6755399441055745 / 2 ^ 53 := by
  rw [jsAdd]
  exact roundDouble_eval_gt _ _ (-1) 6755399441055744 (by norm_num)
    (by simp [pow2, int_toNat_lit]; norm_num) (by simp [pow2, int_toNat_lit]; norm_num)
    (by simp [pow2, int_toNat_lit]; norm_num) (by simp [pow2, int_toNat_lit]; norm_num)
    (by simp [pow2, int_toNat_lit]; norm_num)

/-- Binary64 step: `0.7500000000000001 + 0.15` rounds up. -/
theorem jsAdd_point75_point15 :
    jsAdd ((6755399441055745 : Rat) / 2 ^ 53) ((5404319552844595 : Rat) / 2 ^ 55) =
      4053239664633447 / 2 ^ 52 := by
  rw [jsAdd]
  exact roundDouble_eval_gt _ _ (-1) 8106479329266893 (by norm_num)
    (by simp [pow2, int_toNat_lit]; norm_num) (by simp [pow2, int_toNat_lit]; norm_num)
    (by simp [pow2, int_toNat_lit]; norm_num) (by simp [pow2, int_toNat_lit]; norm_num)
    (by simp [pow2, int_toNat_lit]; norm_num)

/-- Binary64 step: `0.9000000000000001 + 0.1` rounds up to
`1 + 2^-52`: the accumulated total weight strictly exceeds 1. -/
theorem jsAdd_point9_point1 :
    jsAdd ((4053239664633447 : Rat) / 2 ^ 52) ((3602879701896397 : Rat) / 2 ^ 55) =
      4503599627370497 / 2 ^ 52 := by
  rw [jsAdd]
  exact roundDouble_eval_gt _ _ 0 4503599627370496 (by norm_num)
    (by simp [pow2, int_toNat_lit]; norm_num) (by simp [pow2, int_toNat_lit]; norm_num)
    (by simp [pow2, int_toNat_lit]; norm_num) (by simp [pow2, int_toNat_lit]; norm_num)
    (by simp [pow2, int_toNat_lit]; norm_num)

/-- Binary64 step: `0.4 + 0.15` rounds up to `0.55`. -/
theorem jsAdd_point4_point15 :
    jsAdd ((3602879701896397 : Rat) / 2 ^ 53) ((5404319552844595 : Rat) / 2 ^ 55) =
      2476979795053773 / 2 ^ 52 := by
  rw [jsAdd]
  exact roundDouble_eval_gt _ _ (-1) 4953959590107545 (by norm_num)
    (by simp [pow2, int_toNat_lit]; norm_num) (by simp [pow2, int_toNat_lit]; norm_num)
    (by simp [pow2, int_toNat_lit]; norm_num) (by simp [pow2, int_toNat_lit]; norm_num)
    (by simp [pow2, int_toNat_lit]; norm_num)

/-- Binary64 step: `0.4 / (1 + 2^-52)` rounds down to the double just
below 0.4 (`0.3999999999999999`). -/
theorem jsDiv_point4_total :
    jsDiv ((3602879701896397 : Rat) / 2 ^ 53) ((4503599627370497 : Rat) / 2 ^ 52) =
      900719925474099 / 2 ^ 51 := by
  rw [jsDiv]
  exact roundDouble_eval_lt _ _ (-2) 7205759403792792 (by norm_num)
    (by simp [pow2, int_toNat_lit]; norm_num) (by simp [pow2, int_toNat_lit]; norm_num)
    (by simp [pow2, int_toNat_lit]; norm_num) (by simp [pow2, int_toNat_lit]; norm_num)
    (by simp [pow2, int_toNat_lit]; norm_num)

/-- Binary64 step: `0.55 / (1 + 2^-52)` rounds up to the double just
below 0.55. -/
theorem jsDiv_point55_total :
    jsDiv ((2476979795053773 : Rat) / 2 ^ 52) ((4503599627370497 : Rat) / 2 ^ 52) =
      4953959590107545 / 2 ^ 53 := by
  rw [jsDiv]
  exact roundDouble_eval_gt _ _ (-1) 4953959590107544 (by norm_num)
    (by simp [pow2, int_toNat_lit]; norm_num) (by simp [pow2, int_toNat_lit]; norm_num)
    (by simp [pow2, int_toNat_lit]; norm_num) (by simp [pow2, int_toNat_lit]; norm_num)
    (by simp [pow2, int_toNat_lit]; norm_num)

/-- Binary64 step: `0 / q = 0`. -/
theorem jsDiv_zero (q : Rat) : jsDiv 0 q = 0 := by
  simp [jsDiv, roundDouble]

/-- The empty resume computes completeness 0. -/
theorem comp_eval_empty : calculateResumeCompleteness emptyResumeData = 0 := by
  have h : calculateResumeCompleteness emptyResumeData =
      jsDiv 0
        (jsAdd (jsAdd (jsAdd (jsAdd (jsAdd (jsAdd 0 (dbl ((2 : Rat)/10))) (dbl ((2 : Rat)/10)))
          (dbl ((2 : Rat)/10))) (dbl ((15 : Rat)/100))) (dbl ((15 : Rat)/100)))
          (dbl ((1 : Rat)/10))) := by
    simp [calculateResumeCompleteness, emptyResumeData, optLenPos, truthyOpt]
  rw [h, jsDiv_zero]

/-- The education-and-experience resume (exact weighted sum 0.4) computes
the double just below 0.4. -/
theorem comp_eval_boundary :
    calculateResumeCompleteness sampleCompleteResume = 900719925474099 / 2 ^ 51 := by
  have h : calculateResumeCompleteness sampleCompleteResume =
      jsDiv (jsAdd (jsAdd 0 (dbl ((2 : Rat)/10))) (dbl ((2 : Rat)/10)))
        (jsAdd (jsAdd (jsAdd (jsAdd (jsAdd (jsAdd 0 (dbl ((2 : Rat)/10))) (dbl ((2 : Rat)/10)))
          (dbl ((2 : Rat)/10))) (dbl ((15 : Rat)/100))) (dbl ((15 : Rat)/100)))
          (dbl ((1 : Rat)/10))) := by
    simp [calculateResumeCompleteness, sampleCompleteResume, optLenPos, truthyOpt]
  rw [h, dbl_two_tenths, dbl_fifteen_hundredths, dbl_one_tenth, jsAdd_zero_point2,
    jsAdd_point2_point2, jsAdd_point4_point2, jsAdd_point6_point15, jsAdd_point75_point15,
    jsAdd_point9_point1, jsDiv_point4_total]

/-- The education-experience-skills resume computes the double just below
0.55. -/
theorem comp_eval_high :
    calculateResumeCompleteness sampleHighResume = 4953959590107545 / 2 ^ 53 := by
  have h : calculateResumeCompleteness sampleHighResume =
      jsDiv (jsAdd (jsAdd (jsAdd 0 (dbl ((2 : Rat)/10))) (dbl ((2 : Rat)/10)))
          (dbl ((15 : Rat)/100)))
        (jsAdd (jsAdd (jsAdd (jsAdd (jsAdd (jsAdd 0 (dbl ((2 : Rat)/10))) (dbl ((2 : Rat)/10)))
          (dbl ((2 : Rat)/10))) (dbl ((15 : Rat)/100))) (dbl ((15 : Rat)/100)))
          (dbl ((1 : Rat)/10))) := by
    simp [calculateResumeCompleteness, sampleHighResume, optLenPos, truthyOpt]
  rw [h, dbl_two_tenths, dbl_fifteen_hundredths, dbl_one_tenth, jsAdd_zero_point2,
    jsAdd_point2_point2, jsAdd_point4_point2, jsAdd_point6_point15, jsAdd_point75_point15,
    jsAdd_point9_point1, jsAdd_point4_point15, jsDiv_point55_total]

/-- Helper: the score emitted on the incomplete branch of the local ATS
computation. -/
theorem computeATSScoreLocally_score_low (d : ResumeData) (tr : Option String) (rand : Rat)
    (iso : String) (h : calculateResumeCompleteness d < dbl ((4 : Rat)/10)) :
    (computeATSScoreLocally d tr rand iso).score
      = jsRound (((⌊rand * 15⌋ : Int) : Rat) + 35) := by
  simp only [computeATSScoreLocally]
  rw [if_pos h]
  rfl

/-- Helper: the score emitted on the complete branch of the local ATS
computation: base in `[70,80]` plus the length bonus capped at 5, clamped
to at most 80, then rounded. -/
theorem computeATSScoreLocally_score_high (d : ResumeData) (tr : Option String) (rand : Rat)
    (iso : String) (h : ¬ calculateResumeCompleteness d < dbl ((4 : Rat)/10)) :
    (computeATSScoreLocally d tr rand iso).score
      = jsRound (min (((⌊rand * 11⌋ : Int) : Rat) + 70
          + min ((calculateResumeLength d : Rat) / 1000) 5) 80) := by
  simp only [computeATSScoreLocally]
  rw [if_neg h]
  rfl

/-- C8 (corrected): for every resume input and every `Math.random()` draw
`rand ∈ [0,1)`: when the completeness quotient the program computes in
binary64 arithmetic is below the double 0.4 the emitted score lies in
`[35,50)`; otherwise the score is exactly the base value
`⌊rand*11⌋+70 ∈ [70,80]` plus the length bonus `min(length/1000, 5)`,
clamped to at most 80 and rounded, hence lies in `[70,80]`; moreover on
the complete branch the score is monotonically non-decreasing in the
resume text length for a fixed draw.  The computed quotient is not the
exact weighted-sum quotient: the accumulated total weight is `1 + 2^-52`,
so a resume whose exact completeness is 0.4 computes a quotient below
0.4 and lands in the low band (see the counterexample). -/
theorem c8_local_ats_bands (d d2 : ResumeData) (targetRole targetRole2 : Option String)
    (rand : Rat) (nowIso nowIso2 : String) (h0 : 0 ≤ rand) (h1 : rand < 1) :
    (calculateResumeCompleteness d < dbl ((4 : Rat)/10) →
      35 ≤ (computeATSScoreLocally d targetRole rand nowIso).score ∧
      (computeATSScoreLocally d targetRole rand nowIso).score < 50) ∧
    (¬ calculateResumeCompleteness d < dbl ((4 : Rat)/10) →
      70 ≤ (computeATSScoreLocally d targetRole rand nowIso).score ∧
      (computeATSScoreLocally d targetRole rand nowIso).score ≤ 80 ∧
      (computeATSScoreLocally d targetRole rand nowIso).score
        = jsRound (min (((⌊rand * 11⌋ : Int) : Rat) + 70
            + min ((calculateResumeLength d : Rat) / 1000) 5) 80)) ∧
    (¬ calculateResumeCompleteness d < dbl ((4 : Rat)/10) →
      ¬ calculateResumeCompleteness d2 < dbl ((4 : Rat)/10) →
      calculateResumeLength d ≤ calculateResumeLength d2 →
      (computeATSScoreLocally d targetRole rand nowIso).score
        ≤ (computeATSScoreLocally d2 targetRole2 rand nowIso2).score) := by
  have hfloor11 : (0 : Int) ≤ ⌊rand * 11⌋ ∧ ⌊rand * 11⌋ < 11 :=
    ⟨Int.floor_nonneg.mpr (by positivity), Int.floor_lt.mpr (by push_cast; nlinarith)⟩
  refine ⟨?_, ?_, ?_⟩
  · intro h
    have hfloor15 : (0 : Int) ≤ ⌊rand * 15⌋ ∧ ⌊rand * 15⌋ < 15 :=
      ⟨Int.floor_nonneg.mpr (by positivity), Int.floor_lt.mpr (by push_cast; nlinarith)⟩
    rw [computeATSScoreLocally_score_low d targetRole rand nowIso h]
    rw [show ((⌊rand * 15⌋ : Int) : Rat) + 35 = ((⌊rand * 15⌋ + 35 : Int) : Rat)
      by push_cast; ring]
    rw [jsRound_intCast]
    omega
  · intro h
    rw [computeATSScoreLocally_score_high d targetRole rand nowIso h]
    set b : Int := ⌊rand * 11⌋ with hb
    set bonus : Rat := min ((calculateResumeLength d : Rat) / 1000) 5 with hbonus
    have hbonus0 : 0 ≤ bonus := by
      rw [hbonus]
      positivity
    have hb0 : (0 : Rat) ≤ (b : Rat) := by exact_mod_cast hfloor11.1
    refine ⟨?_, ?_, rfl⟩
    · calc (70 : Int) = jsRound ((70 : Int) : Rat) := (jsRound_intCast 70).symm
        _ ≤ _ := by
          apply jsRound_mono
          rw [le_min_iff]
          constructor
          · push_cast
            linarith
          · push_cast
            norm_num
    · calc jsRound (min ((b : Rat) + 70 + bonus) 80)
          ≤ jsRound ((80 : Int) : Rat) := by
            apply jsRound_mono
            push_cast
            exact min_le_right _ _
        _ = 80 := jsRound_intCast 80
  · intro h hd2 hlen
    rw [computeATSScoreLocally_score_high d targetRole rand nowIso h,
      computeATSScoreLocally_score_high d2 targetRole2 rand nowIso2 hd2]
    apply jsRound_mono
    have hc : ((calculateResumeLength d : Nat) : Rat)
        ≤ ((calculateResumeLength d2 : Nat) : Rat) := by exact_mod_cast hlen
    gcongr

/-- C8 witness: the theorem evaluated at an empty resume (computed
completeness 0, low band) and at a resume with education, experience and
technical skills (computed completeness about 0.55, high band), with the
draw `rand = 1/2`. -/
theorem c8_local_ats_bands_witness :
    (35 ≤ (computeATSScoreLocally emptyResumeData none (1/2) "t").score ∧
     (computeATSScoreLocally emptyResumeData none (1/2) "t").score < 50) ∧
    (70 ≤ (computeATSScoreLocally sampleHighResume none (1/2) "t").score ∧
     (computeATSScoreLocally sampleHighResume none (1/2) "t").score ≤ 80) := by
  constructor
  · exact (c8_local_ats_bands emptyResumeData emptyResumeData none none (1/2) "t" "t"
      (by norm_num) (by norm_num)).1
      (by rw [comp_eval_empty, dbl_four_tenths]; norm_num)
  · have h := (c8_local_ats_bands sampleHighResume sampleHighResume none none (1/2)
      "t" "t" (by norm_num) (by norm_num)).2.1
      (by rw [comp_eval_high, dbl_four_tenths]; norm_num)
    exact ⟨h.1, h.2.1⟩

/-- C8 counterexample to the claim as stated: the resume with education
and experience present has exact weighted-sum completeness exactly 0.4
(so the claim's "otherwise" branch promises a score in `[70,80]`), yet
the program's binary64 quotient falls below the double 0.4 and the
emitted score is 42, outside `[70,80]` (draw `rand = 1/2`). -/
theorem c8_exact_completeness_boundary_counterexample :
    exactCompletenessValue sampleCompleteResume = (4 : Rat)/10 ∧
    calculateResumeCompleteness sampleCompleteResume < dbl ((4 : Rat)/10) ∧
    (computeATSScoreLocally sampleCompleteResume none (1/2) "t").score = 42 ∧
    ¬ (70 ≤ (computeATSScoreLocally sampleCompleteResume none (1/2) "t").score) := by
  have hlt : calculateResumeCompleteness sampleCompleteResume < dbl ((4 : Rat)/10) := by
    rw [comp_eval_boundary, dbl_four_tenths]
    norm_num
  have hscore : (computeATSScoreLocally sampleCompleteResume none (1/2) "t").score = 42 := by
    rw [computeATSScoreLocally_score_low sampleCompleteResume none (1/2) "t" hlt]
    rw [show ⌊(1 : Rat)/2 * 15⌋ = 7 by norm_num [Int.floor_eq_iff]]
    rw [show ((7 : Int) : Rat) + 35 = ((42 : Int) : Rat) by norm_num]
    rw [jsRound_intCast]
  refine ⟨?_, hlt, hscore, ?_⟩
  · norm_num [exactCompletenessValue, sampleCompleteResume, optLenPos, truthyOpt]
  · rw [hscore]
    norm_num

/-- Helper: the head of a `dropWhile` result does not satisfy the
predicate. -/
theorem dropWhile_head_false {p : Char → Bool} {l : List Char} {a : Char} {t : List Char}
    (h : l.dropWhile p = a :: t) : p a = false := by
  induction l with
  | nil => simp at h
  | cons c rest ih =>
    rw [List.dropWhile_cons] at h
    by_cases hc : p c
    · rw [if_pos hc] at h
      exact ih h
    · rw [if_neg hc] at h
      cases h
      exact Bool.eq_false_iff.mpr hc

/-- Helper: `dropWhile` is the identity when the head does not satisfy
the predicate. -/
theorem dropWhile_eq_self_of_head {p : Char → Bool} {l : List Char}
    (h : ∀ a, l.head? = some a → p a = false) : l.dropWhile p = l := by
  cases l with
  | nil => rfl
  | cons c rest =>
    rw [List.dropWhile_cons, h c rfl]
    simp

/-- Helper: a nonempty prefix determines the head. -/
theorem prefix_head {A B : List Char} {a : Char} (hp : A <+: B) (h : A.head? = some a) :
    B.head? = some a := by
  obtain ⟨s, rfl⟩ := hp
  cases A with
  | nil => simp at h
  | cons c t => simpa using h

/-- Helper: `jsTrim` via `List.rdropWhile`. -/
theorem jsTrim_eq_rdrop (l : List Char) :
    jsTrim l = (l.dropWhile isJsWs).rdropWhile isJsWs := rfl

/-- Helper: trimming only removes characters. -/
theorem mem_jsTrim {c : Char} {l : List Char} (h : c ∈ jsTrim l) : c ∈ l := by
  rw [jsTrim_eq_rdrop] at h
  have h2 := (List.rdropWhile_prefix isJsWs (l.dropWhile isJsWs)).sublist.subset h
  exact (List.dropWhile_suffix isJsWs).sublist.subset h2

/-- Helper: a trimmed list does not start with whitespace. -/
theorem jsTrim_head {l : List Char} (a : Char) (h : (jsTrim l).head? = some a) :
    isJsWs a = false := by
  rw [jsTrim_eq_rdrop] at h
  have h2 := prefix_head (List.rdropWhile_prefix isJsWs (l.dropWhile isJsWs)) h
  rcases hd : l.dropWhile isJsWs with _ | ⟨b, t⟩
  · rw [hd] at h2
    simp at h2
  · rw [hd] at h2
    simp at h2
    rw [← h2]
    exact dropWhile_head_false hd

/-- Helper: a trimmed list does not end with whitespace. -/
theorem jsTrim_last {l : List Char} (a : Char) (h : (jsTrim l).getLast? = some a) :
    isJsWs a = false := by
  rw [jsTrim_eq_rdrop, List.rdropWhile, List.getLast?_reverse] at h
  rcases hd : (l.dropWhile isJsWs).reverse.dropWhile isJsWs with _ | ⟨b, t⟩
  · rw [hd] at h
    simp at h
  · rw [hd] at h
    simp at h
    rw [← h]
    exact dropWhile_head_false hd

/-- Helper: trimming is the identity on lists with non-whitespace ends. -/
theorem jsTrim_eq_self {l : List Char} (h1 : ∀ a, l.head? = some a → isJsWs a = false)
    (h2 : ∀ a, l.getLast? = some a → isJsWs a = false) : jsTrim l = l := by
  rw [jsTrim_eq_rdrop, dropWhile_eq_self_of_head h1, List.rdropWhile]
  rw [dropWhile_eq_self_of_head (by
    intro a ha
    rw [List.head?_reverse] at ha
    exact h2 a ha)]
  exact List.reverse_reverse l

/-- Helper: a verified prefix is contained in the list. -/
theorem isPrefixOf_subset {pat l : List Char} (h : pat.isPrefixOf l = true) :
    ∀ c ∈ pat, c ∈ l := by
  intro c hc
  exact ((List.isPrefixOf_iff_prefix).mp h).sublist.subset hc

/-- Helper: a verified suffix is contained in the list. -/
theorem isSuffixOf_subset {pat l : List Char} (h : pat.isSuffixOf l = true) :
    ∀ c ∈ pat, c ∈ l := by
  intro c hc
  exact ((List.isSuffixOf_iff_suffix).mp h).sublist.subset hc

/-- Helper: a found substring is contained in the list. -/
theorem jsIncludes_subset {pat l : List Char} (h : jsIncludes pat l = true) :
    ∀ c ∈ pat, c ∈ l := by
  induction l with
  | nil =>
    intro c hc
    unfold jsIncludes at h
    have := isPrefixOf_subset h c hc
    simp at this
  | cons b rest ih =>
    intro c hc
    unfold jsIncludes at h
    rw [Bool.or_eq_true] at h
    rcases h with h | h
    · exact isPrefixOf_subset h c hc
    · exact List.mem_cons_of_mem b (ih h c hc)

/-- Helper: fence stripping is the identity on backtick-free text. -/
theorem stripFenceOpen_eq_self {l : List Char} (h : Char.ofNat 96 ∉ l) :
    stripFenceOpen l = l := by
  unfold stripFenceOpen
  rw [if_neg, if_neg]
  · intro hc
    exact h (isPrefixOf_subset hc (Char.ofNat 96) (by decide))
  · intro hc
    exact h (isPrefixOf_subset hc (Char.ofNat 96) (by decide))

/-- Helper: fence stripping is the identity on backtick-free text. -/
theorem stripFenceClose_eq_self {l : List Char} (h : Char.ofNat 96 ∉ l) :
    stripFenceClose l = l := by
  unfold stripFenceClose
  rw [if_neg, if_neg]
  · intro hc
    exact h (isSuffixOf_subset hc (Char.ofNat 96) (by decide))
  · intro hc
    exact h (isSuffixOf_subset hc (Char.ofNat 96) (by decide))

/-- Helper: the quote fix is the identity on quote-free text. -/
theorem unescapeQuotes_eq_self {l : List Char} (h : '"' ∉ l) : unescapeQuotes l = l := by
  unfold unescapeQuotes
  rw [if_neg]
  intro hc
  rw [Bool.and_eq_true] at hc
  exact h (jsIncludes_subset hc.1 '"' (by decide))

/-- Helper: trailing-comma removal is the identity on comma-free text. -/
theorem removeScan_none_eq_self {l : List Char} (h : ',' ∉ l) : removeScan none l = l := by
  induction l with
  | nil => rfl
  | cons c rest ih =>
    have hc : ¬ c = ',' := by
      intro he
      exact h (he ▸ List.mem_cons_self c rest)
    rw [removeScan, if_neg hc]
    rw [ih (fun hm => h (List.mem_cons_of_mem c hm))]

/-- Helper: comma insertion is the identity on text containing no
second-capture character (no quote, no opening brace); with a pending
first capture the scanner just flushes it with its buffered
whitespace. -/
theorem insertScan_no_opener {l : List Char} (h : ∀ c ∈ l, isOpenerOrQuote c = false) :
    insertScan none l = l ∧
    ∀ x ws, insertScan (some (x, ws)) l = x :: ws.reverse ++ l := by
  induction l with
  | nil =>
    constructor
    · rfl
    · intro x ws
      simp [insertScan]
  | cons c rest ih =>
    have hrest := ih (fun a ha => h a (List.mem_cons_of_mem c ha))
    have hc := h c (List.mem_cons_self c rest)
    constructor
    · rw [insertScan]
      by_cases hX : isCloserOrQuote c = true
      · rw [if_pos hX, hrest.2 c []]
        simp
      · rw [if_neg hX, hrest.1]
    · intro x ws
      rw [insertScan]
      by_cases hW : isJsWs c = true
      · rw [if_pos hW, hrest.2 x (c :: ws)]
        simp
      · rw [if_neg hW, if_neg (by rw [hc]; exact Bool.false_ne_true)]
        by_cases hX : isCloserOrQuote c = true
        · rw [if_pos hX, hrest.2 c []]
          simp
        · rw [if_neg hX, hrest.1]

/-- Helper: the control strip is the identity on control-free text. -/
theorem stripControlChars_eq_self {l : List Char} (h : ∀ c ∈ l, isCtrl c = false) :
    stripControlChars l = l := by
  unfold stripControlChars
  rw [List.filter_eq_self]
  intro a ha
  rw [h a ha]
  rfl

/-- Helper: on brace-free text, delimiter balancing just appends the
missing closing brackets. -/
theorem balanceDelims_no_brace {l : List Char} (h : '{' ∉ l) :
    balanceDelims l = l ++ List.replicate (l.count '[' - l.count ']') ']' := by
  simp only [balanceDelims, List.count_eq_zero.mpr h]
  rw [if_neg (show ¬ List.count '}' l < 0 by omega)]
  by_cases hb : l.count ']' < l.count '['
  · rw [if_pos hb]
  · rw [if_neg hb]
    rw [show l.count '[' - l.count ']' = 0 by omega]
    simp

/-- Helper: quote balancing is the identity on quote-free text. -/
theorem balanceQuotes_eq_self {l : List Char} (h : '"' ∉ l) : balanceQuotes l = l := by
  unfold balanceQuotes
  rw [List.count_eq_zero.mpr h]
  simp

/-- Helper: unpacking of the repair-safe character class. -/
theorem repairSafe_facts {l : List Char} (hs : ∀ c ∈ l, repairSafeChar c = true) :
    '"' ∉ l ∧ ',' ∉ l ∧ Char.ofNat 96 ∉ l ∧ '{' ∉ l ∧ ∀ c ∈ l, isCtrl c = false := by
  refine ⟨?_, ?_, ?_, ?_, ?_⟩
  · intro hm
    have := hs '"' hm
    simp [repairSafeChar] at this
  · intro hm
    have := hs ',' hm
    simp [repairSafeChar] at this
  · intro hm
    have := hs (Char.ofNat 96) hm
    simp [repairSafeChar] at this
  · intro hm
    have := hs '{' hm
    simp [repairSafeChar] at this
  · intro c hc
    have h5 := hs c hc
    unfold repairSafeChar at h5
    cases hct : isCtrl c
    · rfl
    · rw [hct] at h5
      simp at h5

/-- Helper: the last element of a nonempty replicate. -/
theorem getLast?_replicate_succ (n : Nat) (a : Char) :
    (List.replicate (n + 1) a).getLast? = some a := by
  induction n with
  | zero => rfl
  | succ k ih =>
    rw [List.replicate_succ, List.replicate_succ, List.getLast?_cons_cons,
      ← List.replicate_succ, ih]

/-- Helper: on repair-safe text, the whole Text Repair Unit reduces to
trimming followed by appending the missing closing brackets. -/
theorem scrubChars_safe {l : List Char} (hs : ∀ c ∈ l, repairSafeChar c = true) :
    scrubChars l
      = jsTrim l ++ List.replicate ((jsTrim l).count '[' - (jsTrim l).count ']') ']' := by
  have hsT : ∀ c ∈ jsTrim l, repairSafeChar c = true := fun c hc => hs c (mem_jsTrim hc)
  obtain ⟨hq, hcm, hbt, hbr, hctl⟩ := repairSafe_facts hsT
  have hopener : ∀ c ∈ jsTrim l, isOpenerOrQuote c = false := by
    intro c hc
    have h1 : c ≠ '"' := fun he => hq (he ▸ hc)
    have h2 : c ≠ '{' := fun he => hbr (he ▸ hc)
    simp [isOpenerOrQuote, h1, h2]
  have hTR : '"' ∉ jsTrim l ++ List.replicate ((jsTrim l).count '[' - (jsTrim l).count ']') ']' := by
    rw [List.mem_append]
    rintro (hm | hm)
    · exact hq hm
    · rw [List.mem_replicate] at hm
      cases hm.2
  unfold scrubChars fixQuotedNewlines removeTrailingCommas insertMissingCommas
  rw [stripFenceOpen_eq_self hbt, stripFenceClose_eq_self hbt, unescapeQuotes_eq_self hq,
    removeScan_none_eq_self hcm, (insertScan_no_opener hopener).1,
    stripControlChars_eq_self hctl, balanceDelims_no_brace hbr,
    balanceQuotes_eq_self hTR]

/-- Helper: the Text Repair Unit is idempotent on repair-safe
character lists. -/
theorem scrubChars_idempotent_safe {l : List Char}
    (hs : ∀ c ∈ l, repairSafeChar c = true) :
    scrubChars (scrubChars l) = scrubChars l := by
  have h1 := scrubChars_safe hs
  have hsT : ∀ c ∈ jsTrim l, repairSafeChar c = true := fun c hc => hs c (mem_jsTrim hc)
  have hsafe2 : ∀ c ∈ scrubChars l, repairSafeChar c = true := by
    rw [h1]
    intro c hc
    rw [List.mem_append] at hc
    rcases hc with hc | hc
    · exact hsT c hc
    · rw [List.mem_replicate] at hc
      rw [hc.2]
      decide
  have h2 := scrubChars_safe hsafe2
  have htrim : jsTrim (scrubChars l) = scrubChars l := by
    rw [h1]
    apply jsTrim_eq_self
    · intro a ha
      rcases hT : jsTrim l with _ | ⟨b, t⟩
      · rw [hT] at ha
        simp [hT] at ha
      · rw [hT] at ha
        simp at ha
        exact jsTrim_head a (by rw [hT, ha]; rfl)
    · intro a ha
      rcases hk : (jsTrim l).count '[' - (jsTrim l).count ']' with _ | k
      · rw [hk] at ha
        simp at ha
        exact jsTrim_last a ha
      · rw [hk] at ha
        rw [List.getLast?_append_of_ne_nil _ (by simp)] at ha
        rw [getLast?_replicate_succ] at ha
        cases ha
        decide
  rw [h2, htrim, h1]
  have hcount1 : (jsTrim l ++ List.replicate ((jsTrim l).count '[' - (jsTrim l).count ']')
      ']').count '[' = (jsTrim l).count '[' := by
    rw [List.count_append]
    simp [List.count_replicate]
  have hcount2 : (jsTrim l ++ List.replicate ((jsTrim l).count '[' - (jsTrim l).count ']')
      ']').count ']' = (jsTrim l).count ']'
        + ((jsTrim l).count '[' - (jsTrim l).count ']') := by
    rw [List.count_append]
    simp [List.count_replicate]
  rw [hcount1, hcount2]
  rw [show (jsTrim l).count '[' - ((jsTrim l).count ']'
    + ((jsTrim l).count '[' - (jsTrim l).count ']')) = 0 by omega]
  simp

/-- Helper: the character data of a constructed string. -/
theorem data_mk_eq (l : List Char) : (String.mk l).data = l := rfl

/-- C3 (amended): the Text Repair Unit is not idempotent on arbitrary
input; it is idempotent on every input containing no double quote, no
comma, no backtick, no opening brace and no control character. -/
theorem c3_repair_idempotent_on_safe (s : String)
    (h : ∀ c ∈ s.data, repairSafeChar c = true) :
    scrubJsonText (scrubJsonText s) = scrubJsonText s := by
  have h2 := scrubChars_idempotent_safe h
  unfold scrubJsonText
  rw [data_mk_eq]
  exact congrArg String.mk h2


/-- C3 (counterexample): the Text Repair Unit is not idempotent.  On the
one-character input `"` the first repair appends a balancing quote,
producing `""`, and the second repair inserts a comma between the two
quotes, producing `","`. -/
theorem c3_repair_not_idempotent_counterexample :
    scrubJsonText (scrubJsonText "\"") ≠ scrubJsonText "\"" ∧
    scrubJsonText "\"" = "\"\"" ∧
    scrubJsonText (scrubJsonText "\"") = "\",\"" := by
  decide

/-- C3 witness: the amended theorem evaluated on a concrete repair-safe
input (which gains one balancing bracket and is then stable). -/
theorem c3_repair_idempotent_on_safe_witness :
    (∀ c ∈ ("hello [ world".data), repairSafeChar c = true) ∧
    scrubJsonText (scrubJsonText "hello [ world") = scrubJsonText "hello [ world" :=
  ⟨by decide, c3_repair_idempotent_on_safe "hello [ world" (by decide)⟩
